import Mathlib

/-!
A shallow embedding of `xpointerbarrier.c` and the properties proved of it.

The program talks to an X server.  The embedding passes an explicit `World`
(the server-side set of pointer barriers created by this client, counters of
the calls made, and a trace of the calls in program order) through every
function, and takes the answers of the outside world from an `Env` of
oracles indexed by the number of the call.

Conventions.

* C `int` values are modelled in `Int`.  The sums of monitor geometry and
  insets in `create` are C `int` arithmetic: signed overflow is undefined in
  C, and they are modelled with the 32-bit two's-complement wrap-around that
  the compiled program performs (`int_add`, `int_sub`).  The conversion of
  `unsigned long` to `int` in `read_katria_insets` is modelled by
  `int_of_ulong`.  The product `nmon * 4` is kept exact: it stays within
  `int` for every list of fewer than `2^29` monitors.
* Monitor geometry has the ranges of the RandR wire format that Xrandr copies
  into `XRRMonitorInfo` (`INT16 x, y`, `CARD16 width, height`); the items of a
  property of format 32 are `long`s holding sign-extended 32-bit values, as
  Xlib stores them.
* Diagnostic output (`fprintf (stderr, ...)`, `perror`) and the `verbose` flag
  that only guards it have no influence on control flow and are not modelled.
* Calls without an outcome the program looks at that are mere macros or
  bookkeeping (`DefaultScreen`, `RootWindow`, `ConnectionNumber`, `FD_ZERO`,
  `FD_SET`, `XInternAtom`, `XPending`, `sigemptyset`) are not logged.
* `main` never leaves its `for (;;)` loop by itself; one iteration is
  `main_loop_body`, and `main_loop` runs it over a finite list of wake-ups.
-/

namespace XPointerBarrier

/-! ## Data model -/

/-- The `struct Insets` of the source: four `int` fields. -/
structure Insets where
  top : Int
  left : Int
  right : Int
  bottom : Int
deriving DecidableEq

/-- The fields of Xrandr's `XRRMonitorInfo` that `create` reads.  Xrandr
fills them from the wire format of `RRGetMonitors`, in which `x` and `y` are
`INT16` and `width` and `height` are `CARD16`. -/
structure XRRMonitorInfo where
  x : Int
  y : Int
  width : Int
  height : Int
  x_range : -32768 ≤ x ∧ x ≤ 32767 := by decide
  y_range : -32768 ≤ y ∧ y ≤ 32767 := by decide
  width_range : 0 ≤ width ∧ width ≤ 65535 := by decide
  height_range : 0 ≤ height ∧ height ≤ 65535 := by decide
deriving DecidableEq

/-- The result of a C `int` computation whose mathematical value is `v`, as
the compiled program produces it: `v` reduced modulo `2^32` into the range
`INT_MIN .. INT_MAX`. -/
def wrap_int (v : Int) : Int := (v + 2147483648) % 4294967296 - 2147483648

/-- C `a + b` on `int`. -/
def int_add (a b : Int) : Int := wrap_int (a + b)

/-- C `a - b` on `int`. -/
def int_sub (a b : Int) : Int := wrap_int (a - b)

/-- A `PointerBarrier` is an X resource identifier. -/
abbrev PointerBarrier := Nat

/-- Value of `BarrierPositiveX` in `X11/extensions/xfixeswire.h` (`1L << 0`);
the header is not part of the repository. -/
def BarrierPositiveX : Int := 1

/-- Value of `BarrierPositiveY` in `X11/extensions/xfixeswire.h` (`1L << 1`). -/
def BarrierPositiveY : Int := 2

/-- Value of `BarrierNegativeX` in `X11/extensions/xfixeswire.h` (`1L << 2`). -/
def BarrierNegativeX : Int := 4

/-- Value of `BarrierNegativeY` in `X11/extensions/xfixeswire.h` (`1L << 3`). -/
def BarrierNegativeY : Int := 8

/-- Value of `ConfigureNotify` in `X11/X.h`. -/
def ConfigureNotify : Int := 22

/-- Value of `Success` in `X11/X.h`. -/
def Success : Int := 0

/-- Value of `EXIT_FAILURE` in `stdlib.h`. -/
def EXIT_FAILURE : Int := 1

/-- The geometry and direction arguments of one `XFixesCreatePointerBarrier`
request: the segment `(x1, y1)-(x2, y2)` and the `directions` mask. -/
structure BarrierReq where
  x1 : Int
  y1 : Int
  x2 : Int
  y2 : Int
  directions : Int
deriving DecidableEq

/-- The observable actions of the program, in the order the source performs
them.  `read_do_toggle` is the evaluation of `if (do_toggle)` in the main
loop, logged with the value read. -/
inductive Action where
  | XOpenDisplay
  | XGetWindowProperty
  | XFree
  | sleep (seconds : Nat)
  | XQueryExtension
  | sigaction
  | XRRGetMonitors
  | calloc (nmemb : Int)
  | XFixesCreatePointerBarrier (r : BarrierReq)
  | XRRFreeMonitors
  | XSync
  | XFixesDestroyPointerBarrier (b : PointerBarrier)
  | free
  | XSelectInput
  | select
  | XNextEvent (type : Int)
  | read_do_toggle (value : Bool)
  | exit (status : Int)
deriving DecidableEq

/-- What `XRRGetMonitors` hands back: either `NULL` (with whatever the
library left in `*nmonitors`), or an array of monitors together with its
length in `*nmonitors`. -/
inductive GetMonitorsReply where
  | null (nmon : Int)
  | monitors (l : List XRRMonitorInfo)
deriving DecidableEq

/-- The value stored in `nmon` by `XRRGetMonitors`. -/
def GetMonitorsReply.nmon : GetMonitorsReply → Int
  | .null n => n
  | .monitors l => (l.length : Int)

/-- The pointer returned by `XRRGetMonitors` (`none` is `NULL`). -/
def GetMonitorsReply.moninf : GetMonitorsReply → Option (List XRRMonitorInfo)
  | .null _ => none
  | .monitors l => some l

/-- One item of a property of format 32 in the buffer Xlib returns: a `long`
that holds the sign-extended 32-bit value of the item. -/
structure Long32 where
  val : Int
  range : -2147483648 ≤ val ∧ val ≤ 2147483647 := by decide
deriving DecidableEq

/-- What one `XGetWindowProperty` call hands back: the return status,
`nitems`, and the buffer `prop_ret` (`none` is `NULL`), an array of `long`
items. -/
structure PropertyReply where
  status : Int
  nitems : Nat
  prop_ret : Option (List Long32)
deriving DecidableEq

/-- The answers of the outside world.  Repeated calls are indexed by the
number of earlier calls of the same function. -/
structure Env where
  XOpenDisplay : Bool
  atoi : String → Int
  XGetWindowProperty : Nat → PropertyReply
  XQueryExtension : Bool
  sigaction : Bool
  XRRGetMonitors : Nat → GetMonitorsReply
  calloc : Nat → Bool

/-- The state outside the program: the pointer barriers of this client that
exist at the server (handle and geometry, in creation order), the next
resource identifier Xlib hands out, call counters, and the trace. -/
structure World where
  trace : List Action
  server : List (PointerBarrier × BarrierReq)
  next_id : Nat
  n_GetMonitors : Nat
  n_calloc : Nat
  n_GetProperty : Nat
deriving DecidableEq

/-- The world at program start: nothing done, no barrier of this client. -/
def World.init : World := ⟨[], [], 0, 0, 0, 0⟩

/-- Append one action to the trace. -/
def World.log (w : World) (a : Action) : World :=
  { w with trace := w.trace ++ [a] }

/-- The handles of the barriers existing at the server. -/
def World.handles (w : World) : List PointerBarrier := w.server.map Prod.fst

/-- The geometry of the barriers existing at the server. -/
def World.descriptors (w : World) : List BarrierReq := w.server.map Prod.snd

/-! ## The display server's barrier primitives -/

/-- The server side of `XFixesCreatePointerBarrier`: a fresh identifier is
allocated and the barrier exists from then on. -/
def XFixesCreatePointerBarrier (r : BarrierReq) (w : World) : PointerBarrier × World :=
  (w.next_id,
   { (w.log (Action.XFixesCreatePointerBarrier r)) with
     server := w.server ++ [(w.next_id, r)]
     next_id := w.next_id + 1 })

/-- The server side of `XFixesDestroyPointerBarrier`: the barrier with this
handle no longer exists. -/
def XFixesDestroyPointerBarrier (b : PointerBarrier) (w : World) : World :=
  { (w.log (Action.XFixesDestroyPointerBarrier b)) with
    server := w.server.filter (fun p => p.1 ≠ b) }

/-! ## `create_barrier_verbose`, `create`, `destroy` -/

/-- Source `create_barrier_verbose` (lines 30-45), called with
`num_devices = 0`, `devices = NULL`. -/
def create_barrier_verbose (x1 y1 x2 y2 directions : Int) (w : World) :
    PointerBarrier × World :=
  XFixesCreatePointerBarrier ⟨x1, y1, x2, y2, directions⟩ w

/-- The body of the `for` loop of `create` (lines 83-106) for one monitor:
four barriers, top, left, right, bottom, stored at `barriers[barr_i++]`. -/
def create_body (insets : Insets) (m : XRRMonitorInfo) (barriers : List PointerBarrier)
    (w : World) : List PointerBarrier × World :=
  let (b0, w) := create_barrier_verbose
    m.x (int_add m.y insets.top)
    (int_add m.x m.width) (int_add m.y insets.top)
    (if insets.top ≠ 0 then BarrierPositiveY else 0) w
  let (b1, w) := create_barrier_verbose
    (int_add m.x insets.left) m.y
    (int_add m.x insets.left) (int_add m.y m.height)
    (if insets.left ≠ 0 then BarrierPositiveX else 0) w
  let (b2, w) := create_barrier_verbose
    (int_sub (int_add m.x m.width) insets.right) m.y
    (int_sub (int_add m.x m.width) insets.right) (int_add m.y m.height)
    (if insets.right ≠ 0 then BarrierNegativeX else 0) w
  let (b3, w) := create_barrier_verbose
    m.x (int_sub (int_add m.y m.height) insets.bottom)
    (int_add m.x m.width) (int_sub (int_add m.y m.height) insets.bottom)
    (if insets.bottom ≠ 0 then BarrierNegativeY else 0) w
  (barriers ++ [b0, b1, b2, b3], w)

/-- The `for (i = 0; i < nmon; i++)` loop of `create` (lines 76-107) over
the monitors still to visit. -/
def create_loop (insets : Insets) :
    List XRRMonitorInfo → List PointerBarrier → World → List PointerBarrier × World
  | [], barriers, w => (barriers, w)
  | m :: ms, barriers, w =>
    let (barriers, w) := create_body insets m barriers w
    create_loop insets ms barriers w

/-- Source `create` (lines 47-112).  `num` is the value of `*num` on entry;
the result is the returned pointer (`none` is `NULL`), the value of `*num`
on return, and the world. -/
def create (env : Env) (insets : Insets) (num : Int) (w : World) :
    Option (List PointerBarrier) × Int × World :=
  let reply := env.XRRGetMonitors w.n_GetMonitors
  let w := { (w.log Action.XRRGetMonitors) with n_GetMonitors := w.n_GetMonitors + 1 }
  match reply with
  | .null _ => (none, num, w)
  | .monitors moninf =>
    if reply.nmon ≤ 0 then (none, num, w)
    else
      let num := reply.nmon * 4
      let ok := env.calloc w.n_calloc
      let w := { (w.log (Action.calloc num)) with n_calloc := w.n_calloc + 1 }
      if !ok then (none, num, w)
      else
        let (barriers, w) := create_loop insets moninf [] w
        let w := w.log Action.XRRFreeMonitors
        let w := w.log Action.XSync
        (some barriers, num, w)

/-- The `for (i = 0; i < num; i++)` loop of `destroy` (lines 119-124) over
the entries still to visit. -/
def destroy_loop : List PointerBarrier → World → World
  | [], w => w
  | b :: bs, w => destroy_loop bs (XFixesDestroyPointerBarrier b w)

/-- Source `destroy` (lines 114-128): the first `num` entries of the array
are destroyed in order, then the array is freed and the connection synced. -/
def destroy (barriers : List PointerBarrier) (num : Int) (w : World) : World :=
  let w := destroy_loop (barriers.take num.toNat) w
  let w := w.log Action.free
  w.log Action.XSync

/-! ## `handle_sigusr1`, `read_katria_insets` -/

/-- The `unsigned long` read through `(unsigned long *)` from a `long` of
value `v`: the same 64 bits. -/
def ulong_of_long (v : Int) : Nat := (v % 18446744073709551616).toNat

/-- The C conversion of an `unsigned long` value to `int` (the assignments of
lines 156-159): the value is reduced modulo `2^32` into the range of `int`. -/
def int_of_ulong (v : Nat) : Int :=
  if v % 2 ^ 32 < 2 ^ 31 then ((v % 2 ^ 32 : Nat) : Int)
  else ((v % 2 ^ 32 : Nat) : Int) - 2 ^ 32

/-- The condition of line 149-153:
`XGetWindowProperty (...) == Success && nitems == 4 && prop_ret != NULL`. -/
def PropertyReply.usable (r : PropertyReply) : Bool :=
  r.status == Success && r.nitems == 4 && r.prop_ret.isSome

/-- The `for (try = 0; try < 60; try++)` loop of `read_katria_insets`
(lines 147-168) with `remaining = 60 - try` iterations still to run.
`some insets` is `return true` with `*insets` filled in. -/
def read_katria_insets_loop (env : Env) : Nat → World → Option Insets × World
  | 0, w => (none, w)
  | remaining + 1, w =>
    let reply := env.XGetWindowProperty w.n_GetProperty
    let w := { (w.log Action.XGetWindowProperty) with n_GetProperty := w.n_GetProperty + 1 }
    if reply.usable then
      let prop_ret := reply.prop_ret.getD []
      (some ⟨int_of_ulong (ulong_of_long (prop_ret.getD 0 {val := 0}).val),
             int_of_ulong (ulong_of_long (prop_ret.getD 1 {val := 0}).val),
             int_of_ulong (ulong_of_long (prop_ret.getD 2 {val := 0}).val),
             int_of_ulong (ulong_of_long (prop_ret.getD 3 {val := 0}).val)⟩,
       w.log Action.XFree)
    else
      read_katria_insets_loop env remaining (w.log (Action.sleep 1))

/-- Source `read_katria_insets` (lines 138-170); `none` is `return false`. -/
def read_katria_insets (env : Env) (w : World) : Option Insets × World :=
  read_katria_insets_loop env 60 w

/-! ## `main` -/

/-- Either the process has called `exit (status)`, or it is still running
with the given program state. -/
inductive Outcome (α : Type) where
  | exited (status : Int)
  | running (a : α)
deriving DecidableEq

/-- The result `strncmp (s, t, n) == 0` for C strings. -/
def strncmp_eq (s t : String) (n : Nat) : Bool :=
  s.toList.take n == t.toList.take n

/-- The call `exit (EXIT_FAILURE)`. -/
def exit_failure {α : Type} (w : World) : Outcome α × World :=
  (.exited EXIT_FAILURE, w.log (Action.exit EXIT_FAILURE))

/-- Lines 189-222 of `main`: the display is opened and the insets are taken
from the property (`-k`) or from the command line. -/
def get_insets (env : Env) (argv : List String) (w : World) : Outcome Insets × World :=
  let argc := argv.length
  let w := w.log Action.XOpenDisplay
  if !env.XOpenDisplay then exit_failure w
  else if argc ≥ 2 ∧ argc < 5 ∧ strncmp_eq (argv.getD 1 "") "-k" 2 = true then
    match read_katria_insets env w with
    | (none, w) => exit_failure w
    | (some insets, w) => (.running insets, w)
  else if argc ≥ 5 then
    (.running ⟨env.atoi (argv.getD 1 ""), env.atoi (argv.getD 2 ""),
               env.atoi (argv.getD 3 ""), env.atoi (argv.getD 4 "")⟩, w)
  else exit_failure w

/-- Lines 189-254 of `main`: everything before the first `create`. -/
def main_setup (env : Env) (argv : List String) (w : World) : Outcome Insets × World :=
  match get_insets env argv w with
  | (.exited status, w) => (.exited status, w)
  | (.running insets, w) =>
    if insets.top < 0 ∨ insets.left < 0 ∨ insets.right < 0 ∨ insets.bottom < 0 then
      exit_failure w
    else
      let w := w.log Action.XQueryExtension
      if !env.XQueryExtension then exit_failure w
      else
        let w := w.log Action.sigaction
        if !env.sigaction then exit_failure w
        else (.running insets, w)

/-- The variables of `main` that live across loop iterations, and the global
`do_toggle`. -/
structure MainState where
  insets : Insets
  barriers : Option (List PointerBarrier)
  barriers_num : Int
  barriers_active : Bool
  do_toggle : Bool
deriving DecidableEq

/-- Lines 189-262 of `main`: set-up, the initial `create`, and the
subscription to `ConfigureNotify`.  `barriers_num0` is the indeterminate
content of the uninitialised local `barriers_num`. -/
def main_start (env : Env) (barriers_num0 : Int) (argv : List String) (w : World) :
    Outcome MainState × World :=
  match main_setup env argv w with
  | (.exited status, w) => (.exited status, w)
  | (.running insets, w) =>
    let (barriers, barriers_num, w) := create env insets barriers_num0 w
    let w := w.log Action.XSelectInput
    let w := w.log Action.XSync
    (.running ⟨insets, barriers, barriers_num, true, false⟩, w)

/-- Source `handle_sigusr1` (lines 130-136). -/
def handle_sigusr1 (s : MainState) : MainState :=
  { s with do_toggle := true }

/-- An `XEvent` as far as `main` looks at it: its `type`. -/
structure XEvent where
  type : Int
deriving DecidableEq

/-- The body of `while (XPending (dpy))` (lines 276-292) for one event. -/
def handle_event (env : Env) (ev : XEvent) (s : MainState) (w : World) : MainState × World :=
  let w := w.log (Action.XNextEvent ev.type)
  if ev.type = ConfigureNotify then
    let w := match s.barriers with
      | some barriers => destroy barriers s.barriers_num w
      | none => w
    if s.barriers_active then
      let (barriers, barriers_num, w) := create env s.insets s.barriers_num w
      ({ s with barriers := barriers, barriers_num := barriers_num }, w)
    else
      ({ s with barriers := none }, w)
  else (s, w)

/-- The loop `while (XPending (dpy))` (lines 274-293) over the events that
are pending during this wake-up. -/
def drain_events (env : Env) : List XEvent → MainState → World → MainState × World
  | [], s, w => (s, w)
  | ev :: evs, s, w =>
    let (s, w) := handle_event env ev s w
    drain_events env evs s w

/-- The statement `if (do_toggle) { ... }` (lines 295-310). -/
def handle_toggle (env : Env) (s : MainState) (w : World) : MainState × World :=
  let w := w.log (Action.read_do_toggle s.do_toggle)
  if s.do_toggle then
    let s := { s with do_toggle := false, barriers_active := !s.barriers_active }
    let w := match s.barriers with
      | some barriers => destroy barriers s.barriers_num w
      | none => w
    if s.barriers_active then
      let (barriers, barriers_num, w) := create env s.insets s.barriers_num w
      ({ s with barriers := barriers, barriers_num := barriers_num }, w)
    else
      ({ s with barriers := none }, w)
  else (s, w)

/-- How `select` returns: a descriptor is readable, or `-1` with
`errno == EINTR`, or `-1` with another `errno`. -/
inductive SelectResult where
  | ready
  | eintr
  | error
deriving DecidableEq

/-- What the outside world does during one iteration of the main loop: how
`select` returns, whether SIGUSR1 is delivered before `do_toggle` is
examined, and the events `XNextEvent` returns while `XPending` is non-zero. -/
structure Wake where
  select : SelectResult
  sigusr1 : Bool
  events : List XEvent
deriving DecidableEq

/-- One iteration of `for (;;)` in `main` (lines 265-310). -/
def main_loop_body (env : Env) (k : Wake) (s : MainState) (w : World) :
    Outcome MainState × World :=
  let w := w.log Action.select
  if k.select = SelectResult.error then exit_failure w
  else
    let s := if k.sigusr1 then handle_sigusr1 s else s
    let (s, w) := drain_events env k.events s w
    let (s, w) := handle_toggle env s w
    (.running s, w)

/-- The loop `for (;;)` of `main` run over the given wake-ups. -/
def main_loop (env : Env) : List Wake → MainState → World → Outcome MainState × World
  | [], s, w => (.running s, w)
  | k :: ks, s, w =>
    match main_loop_body env k s w with
    | (.exited status, w) => (.exited status, w)
    | (.running s, w) => main_loop env ks s w

/-- Source `main` (lines 172-314), started in `World.init` and observed after
the given wake-ups. -/
def main (env : Env) (barriers_num0 : Int) (argv : List String) (ks : List Wake) :
    Outcome MainState × World :=
  match main_start env barriers_num0 argv World.init with
  | (.exited status, w) => (.exited status, w)
  | (.running s, w) => main_loop env ks s w

/-! ## Concrete environments for the example runs -/

/-- The digits at the head of the list as a decimal number, continuing from
`acc`. -/
def atoi_digits : List Char → Int → Int
  | [], acc => acc
  | c :: cs, acc =>
    if c.isDigit then atoi_digits cs (acc * 10 + ((c.toNat - 48 : Nat) : Int)) else acc

/-- The C library's `isspace` in the "C" locale. -/
def isspace (c : Char) : Bool :=
  c = ' ' || c = '\t' || c = '\n' || c = '\x0b' || c = '\x0c' || c = '\r'

/-- The `atoi` of the C library, that is `(int) strtol (s, NULL, 10)`:
leading white space is skipped, an optional sign and the decimal digits are
read, the value is clamped to the range of `long` and converted to `int`. -/
def atoi_libc (s : String) : Int :=
  let v := match s.toList.dropWhile isspace with
    | '-' :: cs => - atoi_digits cs 0
    | '+' :: cs => atoi_digits cs 0
    | cs => atoi_digits cs 0
  wrap_int (max (-9223372036854775808) (min v 9223372036854775807))

/-- The monitor of the examples: 1920x1080 at the origin. -/
def monitor_hd : XRRMonitorInfo := { x := 0, y := 0, width := 1920, height := 1080 }

/-- A second monitor to the right of `monitor_hd`: 1280x1024 at `(1920, 0)`. -/
def monitor_right : XRRMonitorInfo := { x := 1920, y := 0, width := 1280, height := 1024 }

/-- A monitor one pixel below the origin: 1920x1080 at `(0, 1)`. -/
def monitor_low : XRRMonitorInfo := { x := 0, y := 1, width := 1920, height := 1080 }

/-- An environment in which everything works: one monitor `monitor_hd`, the
property holds `[30, 0, 0, 0]` from the first read on. -/
def env_ok : Env where
  XOpenDisplay := true
  atoi := atoi_libc
  XGetWindowProperty := fun _ =>
    ⟨Success, 4, some [{val := 30}, {val := 0}, {val := 0}, {val := 0}]⟩
  XQueryExtension := true
  sigaction := true
  XRRGetMonitors := fun _ => .monitors [monitor_hd]
  calloc := fun _ => true

/-- As `env_ok`, but the one monitor is `monitor_low`. -/
def env_low : Env := { env_ok with XRRGetMonitors := fun _ => .monitors [monitor_low] }

/-- As `env_ok`, but the first item of the property is `-5`. -/
def env_negative_property : Env :=
  { env_ok with
    XGetWindowProperty := fun _ =>
      ⟨Success, 4, some [{val := -5}, {val := 0}, {val := 0}, {val := 0}]⟩ }

/-- As `env_ok`, but every `calloc` fails. -/
def env_calloc_fails : Env := { env_ok with calloc := fun _ => false }

/-- As `env_ok`, but only the first `calloc` succeeds. -/
def env_second_calloc_fails : Env := { env_ok with calloc := fun n => n == 0 }

/-! ## Specification-side notions -/

/-- The four requests that the loop body of `create` computes for one
monitor, in the order top, left, right, bottom, with the sums in C `int`
arithmetic. -/
def edge_barriers (insets : Insets) (m : XRRMonitorInfo) : List BarrierReq :=
  [⟨m.x, int_add m.y insets.top, int_add m.x m.width, int_add m.y insets.top,
      if insets.top = 0 then 0 else BarrierPositiveY⟩,
   ⟨int_add m.x insets.left, m.y, int_add m.x insets.left, int_add m.y m.height,
      if insets.left = 0 then 0 else BarrierPositiveX⟩,
   ⟨int_sub (int_add m.x m.width) insets.right, m.y,
      int_sub (int_add m.x m.width) insets.right, int_add m.y m.height,
      if insets.right = 0 then 0 else BarrierNegativeX⟩,
   ⟨m.x, int_sub (int_add m.y m.height) insets.bottom, int_add m.x m.width,
      int_sub (int_add m.y m.height) insets.bottom,
      if insets.bottom = 0 then 0 else BarrierNegativeY⟩]

/-- The four barriers of one monitor as the geometry rule words them, in the
order top, left, right, bottom, with the sums taken in the integers: an edge
with inset zero lies on the edge with mask `0`, an edge with a non-zero inset
is moved inward by the inset and has the single-direction mask of that
edge. -/
def ideal_barriers (insets : Insets) (m : XRRMonitorInfo) : List BarrierReq :=
  [⟨m.x, m.y + insets.top, m.x + m.width, m.y + insets.top,
      if insets.top = 0 then 0 else BarrierPositiveY⟩,
   ⟨m.x + insets.left, m.y, m.x + insets.left, m.y + m.height,
      if insets.left = 0 then 0 else BarrierPositiveX⟩,
   ⟨m.x + m.width - insets.right, m.y, m.x + m.width - insets.right, m.y + m.height,
      if insets.right = 0 then 0 else BarrierNegativeX⟩,
   ⟨m.x, m.y + m.height - insets.bottom, m.x + m.width, m.y + m.height - insets.bottom,
      if insets.bottom = 0 then 0 else BarrierNegativeY⟩]

/-- The value `v` is representable as a C `int`. -/
def in_int (v : Int) : Prop := -2147483648 ≤ v ∧ v ≤ 2147483647

instance (v : Int) : Decidable (in_int v) :=
  inferInstanceAs (Decidable (-2147483648 ≤ v ∧ v ≤ 2147483647))

/-- None of the four sums of monitor geometry and insets that `create`
computes for the monitor `m` leaves the range of `int`. -/
def no_overflow (insets : Insets) (m : XRRMonitorInfo) : Prop :=
  in_int (m.y + insets.top) ∧ in_int (m.x + insets.left) ∧
  in_int (m.x + m.width - insets.right) ∧ in_int (m.y + m.height - insets.bottom)

instance (insets : Insets) (m : XRRMonitorInfo) : Decidable (no_overflow insets m) :=
  inferInstanceAs (Decidable (in_int (m.y + insets.top) ∧ in_int (m.x + insets.left) ∧
    in_int (m.x + m.width - insets.right) ∧ in_int (m.y + m.height - insets.bottom)))

/-- The handles of the live barrier set of the program (`[]` when
`barriers == NULL`). -/
def MainState.live (s : MainState) : List PointerBarrier := s.barriers.getD []

/-- The program's barrier array and the server agree: the barriers existing
at the server are exactly the entries of `barriers` (none when it is `NULL`),
`barriers_num` is the length of the array, and every handle in use is below
the next identifier to be handed out. -/
def Consistent (s : MainState) (w : World) : Prop :=
  w.handles = s.live ∧
  (∀ bs, s.barriers = some bs → s.barriers_num = (bs.length : Int)) ∧
  (∀ h ∈ w.handles, h < w.next_id)

/-- The world after a call of `create` that gets a non-empty monitor list and
storage for the array. -/
def World.after_create (w : World) (insets : Insets) (ms : List XRRMonitorInfo) : World :=
  { trace := w.trace ++ [Action.XRRGetMonitors, Action.calloc ((ms.length : Int) * 4)] ++
      (ms.flatMap (edge_barriers insets)).map Action.XFixesCreatePointerBarrier ++
      [Action.XRRFreeMonitors, Action.XSync]
    server := w.server ++
      (List.range' w.next_id (4 * ms.length)).zip (ms.flatMap (edge_barriers insets))
    next_id := w.next_id + 4 * ms.length
    n_GetMonitors := w.n_GetMonitors + 1
    n_calloc := w.n_calloc + 1
    n_GetProperty := w.n_GetProperty }

/-- The block shared by lines 285-291 and 303-309 of `main`: the installed
set, if any, is destroyed, and a new one is created when `barriers_active`. -/
def reconcile (env : Env) (s : MainState) (w : World) : MainState × World :=
  let w := match s.barriers with
    | some barriers => destroy barriers s.barriers_num w
    | none => w
  if s.barriers_active then
    let (barriers, barriers_num, w) := create env s.insets s.barriers_num w
    ({ s with barriers := barriers, barriers_num := barriers_num }, w)
  else
    ({ s with barriers := none }, w)

/-- The actions that `destroy` and `create` perform. -/
def Action.is_reconcile : Action → Bool
  | .XFixesDestroyPointerBarrier _ => true
  | .free => true
  | .XSync => true
  | .XRRGetMonitors => true
  | .calloc _ => true
  | .XFixesCreatePointerBarrier _ => true
  | .XRRFreeMonitors => true
  | _ => false

/-- The number of `ConfigureNotify` events in a list of events. -/
def count_ConfigureNotify (evs : List XEvent) : Nat :=
  (evs.filter fun ev => ev.type = ConfigureNotify).length

/-- The world after the destroy step of the reconciliation block, when the
array and the server agree: every installed barrier is gone. -/
def World.after_destroy (w : World) (s : MainState) : World :=
  { w with
    trace := w.trace ++
      (if s.barriers.isSome then
        s.live.map Action.XFixesDestroyPointerBarrier ++ [Action.free, Action.XSync]
       else [])
    server := [] }

/-- The shape of the actions of `while (XPending (dpy))` over the events
`evs`: `Drained active i evs t j` says that in `t` every event is taken with
`XNextEvent`, in order, and that every `ConfigureNotify` event is reconciled
right after it is taken and before the next one is: by actions of `destroy`
and `create` only, with one `destroy` call (one `free`) exactly when a set is
installed at that moment, and one `create` call (one monitor query) exactly
when `active`; a set is installed afterwards exactly when that `create` got
as far as `XRRFreeMonitors`.  `i` and `j` tell whether a set is installed
before and after. -/
inductive Drained (active : Bool) : Bool → List XEvent → List Action → Bool → Prop where
  | nil (i : Bool) : Drained active i [] [] i
  | other (ev : XEvent) (evs : List XEvent) (i j : Bool) (t : List Action)
      (h : ev.type ≠ ConfigureNotify) (ht : Drained active i evs t j) :
      Drained active i (ev :: evs) (Action.XNextEvent ev.type :: t) j
  | configure (ev : XEvent) (evs : List XEvent) (i j : Bool) (d t : List Action)
      (h : ev.type = ConfigureNotify)
      (hr : ∀ a ∈ d, a.is_reconcile = true)
      (hf : d.count Action.free = if i then 1 else 0)
      (hq : d.count Action.XRRGetMonitors = if active then 1 else 0)
      (ht : Drained active (decide (Action.XRRFreeMonitors ∈ d)) evs t j) :
      Drained active i (ev :: evs) (Action.XNextEvent ev.type :: (d ++ t)) j

/-- The `XNextEvent` actions. -/
def Action.is_XNextEvent : Action → Bool
  | .XNextEvent _ => true
  | _ => false

/-- The actions performed while the insets are obtained (lines 189-228). -/
def Action.is_startup : Action → Bool
  | .XOpenDisplay => true
  | .XGetWindowProperty => true
  | .XFree => true
  | .sleep _ => true
  | .exit _ => true
  | _ => false

/-! ## Lemmas on `create` and `destroy` -/

theorem edge_barriers_length (insets : Insets) (m : XRRMonitorInfo) :
    (edge_barriers insets m).length = 4 := rfl

theorem flatMap_edge_barriers_length (insets : Insets) (ms : List XRRMonitorInfo) :
    (ms.flatMap (edge_barriers insets)).length = 4 * ms.length := by
  induction ms with
  | nil => rfl
  | cons m ms ih =>
    simp only [List.flatMap_cons, List.length_append, ih, edge_barriers_length,
      List.length_cons]
    omega

theorem create_body_eq (insets : Insets) (m : XRRMonitorInfo) (bs : List PointerBarrier)
    (w : World) :
    create_body insets m bs w =
      (bs ++ List.range' w.next_id 4,
       { w with
         trace := w.trace ++ (edge_barriers insets m).map Action.XFixesCreatePointerBarrier
         server := w.server ++ (List.range' w.next_id 4).zip (edge_barriers insets m)
         next_id := w.next_id + 4 }) := by
  by_cases h1 : insets.top = 0 <;> by_cases h2 : insets.left = 0 <;>
    by_cases h3 : insets.right = 0 <;> by_cases h4 : insets.bottom = 0 <;>
    simp [create_body, create_barrier_verbose, XFixesCreatePointerBarrier, World.log,
      edge_barriers, List.range', h1, h2, h3, h4]

theorem create_loop_eq (insets : Insets) (ms : List XRRMonitorInfo) :
    ∀ (bs : List PointerBarrier) (w : World),
      create_loop insets ms bs w =
        (bs ++ List.range' w.next_id (4 * ms.length),
         { w with
           trace := w.trace ++
             (ms.flatMap (edge_barriers insets)).map Action.XFixesCreatePointerBarrier
           server := w.server ++
             (List.range' w.next_id (4 * ms.length)).zip (ms.flatMap (edge_barriers insets))
           next_id := w.next_id + 4 * ms.length }) := by
  induction ms with
  | nil => intro bs w; simp [create_loop]
  | cons m ms ih =>
    intro bs w
    have hr : List.range' w.next_id (4 * (ms.length + 1)) =
        List.range' w.next_id 4 ++ List.range' (w.next_id + 4) (4 * ms.length) := by
      have := List.range'_append w.next_id 4 (4 * ms.length) 1
      simp only [Nat.one_mul] at this
      rw [this, Nat.mul_succ]
    have hz : (List.range' w.next_id 4 ++ List.range' (w.next_id + 4) (4 * ms.length)).zip
        (edge_barriers insets m ++ ms.flatMap (edge_barriers insets)) =
        (List.range' w.next_id 4).zip (edge_barriers insets m) ++
        (List.range' (w.next_id + 4) (4 * ms.length)).zip (ms.flatMap (edge_barriers insets)) :=
      List.zip_append (by simp [edge_barriers_length])
    simp only [create_loop, create_body_eq, ih, List.length_cons, List.flatMap_cons, hr, hz,
      List.map_append, List.append_assoc, Nat.add_assoc]
    congr 2
    omega

theorem create_ok (env : Env) (insets : Insets) (num : Int) (w : World)
    (ms : List XRRMonitorInfo)
    (hq : env.XRRGetMonitors w.n_GetMonitors = .monitors ms) (hne : ms ≠ [])
    (hc : env.calloc w.n_calloc = true) :
    create env insets num w =
      (some (List.range' w.next_id (4 * ms.length)), (ms.length : Int) * 4,
       w.after_create insets ms) := by
  have hpos : ¬ ((ms.length : Int) ≤ 0) := by
    have : 0 < ms.length := List.length_pos.mpr hne
    omega
  simp [create, hq, GetMonitorsReply.nmon, hpos, World.log, hc, create_loop_eq,
    World.after_create]

theorem create_null (env : Env) (insets : Insets) (num : Int) (w : World)
    (h : (env.XRRGetMonitors w.n_GetMonitors).nmon ≤ 0 ∨
      (env.XRRGetMonitors w.n_GetMonitors).moninf = none) :
    create env insets num w =
      (none, num,
       { w with trace := w.trace ++ [Action.XRRGetMonitors]
                n_GetMonitors := w.n_GetMonitors + 1 }) := by
  cases hq : env.XRRGetMonitors w.n_GetMonitors with
  | null n => simp [create, hq, World.log]
  | monitors ms =>
    rw [hq] at h
    have hle : (ms.length : Int) ≤ 0 := by
      rcases h with h | h
      · exact h
      · simp [GetMonitorsReply.moninf] at h
    simp [create, hq, World.log, GetMonitorsReply.nmon, hle]

theorem create_calloc_fails (env : Env) (insets : Insets) (num : Int) (w : World)
    (ms : List XRRMonitorInfo)
    (hq : env.XRRGetMonitors w.n_GetMonitors = .monitors ms) (hne : ms ≠ [])
    (hc : env.calloc w.n_calloc = false) :
    create env insets num w =
      (none, (ms.length : Int) * 4,
       { w with trace := w.trace ++ [Action.XRRGetMonitors, Action.calloc ((ms.length : Int) * 4)]
                n_GetMonitors := w.n_GetMonitors + 1
                n_calloc := w.n_calloc + 1 }) := by
  have hpos : ¬ ((ms.length : Int) ≤ 0) := by
    have : 0 < ms.length := List.length_pos.mpr hne
    omega
  simp [create, hq, GetMonitorsReply.nmon, hpos, World.log, hc]

/-- The three ways `create` can go, by the reply of the monitor query and the
outcome of `calloc`. -/
theorem create_cases (env : Env) (insets : Insets) (num : Int) (w : World) :
    (((env.XRRGetMonitors w.n_GetMonitors).nmon ≤ 0 ∨
        (env.XRRGetMonitors w.n_GetMonitors).moninf = none) ∧
      create env insets num w =
        (none, num,
         { w with trace := w.trace ++ [Action.XRRGetMonitors]
                  n_GetMonitors := w.n_GetMonitors + 1 })) ∨
    (∃ ms, env.XRRGetMonitors w.n_GetMonitors = .monitors ms ∧ ms ≠ [] ∧
      env.calloc w.n_calloc = false ∧
      create env insets num w =
        (none, (ms.length : Int) * 4,
         { w with trace := w.trace ++
                    [Action.XRRGetMonitors, Action.calloc ((ms.length : Int) * 4)]
                  n_GetMonitors := w.n_GetMonitors + 1
                  n_calloc := w.n_calloc + 1 })) ∨
    (∃ ms, env.XRRGetMonitors w.n_GetMonitors = .monitors ms ∧ ms ≠ [] ∧
      env.calloc w.n_calloc = true ∧
      create env insets num w =
        (some (List.range' w.next_id (4 * ms.length)), (ms.length : Int) * 4,
         w.after_create insets ms)) := by
  cases hq : env.XRRGetMonitors w.n_GetMonitors with
  | null n =>
    left
    exact ⟨Or.inr rfl, by simpa [hq] using create_null env insets num w (by simp [hq, GetMonitorsReply.moninf])⟩
  | monitors ms =>
    by_cases hne : ms = []
    · left
      have h0 : (GetMonitorsReply.monitors ms).nmon ≤ 0 := by
        simp [GetMonitorsReply.nmon, hne]
      exact ⟨Or.inl h0, create_null env insets num w (by rw [hq]; exact Or.inl h0)⟩
    · right
      cases hc : env.calloc w.n_calloc with
      | false => left; exact ⟨ms, rfl, hne, rfl, create_calloc_fails env insets num w ms hq hne hc⟩
      | true => right; exact ⟨ms, rfl, hne, rfl, create_ok env insets num w ms hq hne hc⟩

theorem destroy_loop_eq (bs : List PointerBarrier) :
    ∀ w : World,
      destroy_loop bs w =
        { w with trace := w.trace ++ bs.map Action.XFixesDestroyPointerBarrier
                 server := w.server.filter (fun p => p.1 ∉ bs) } := by
  induction bs with
  | nil => intro w; simp [destroy_loop]
  | cons b bs ih =>
    intro w
    simp only [destroy_loop, ih, XFixesDestroyPointerBarrier, World.log, List.map_cons,
      List.append_assoc, List.singleton_append, List.filter_filter, List.mem_cons, not_or]
    congr 1
    apply List.filter_congr
    intro p _
    simp only [decide_not, Bool.decide_and]
    exact Bool.and_comm _ _

theorem destroy_eq (bs : List PointerBarrier) (num : Int) (w : World) :
    destroy bs num w =
      { w with trace := w.trace ++
                 (bs.take num.toNat).map Action.XFixesDestroyPointerBarrier ++
                 [Action.free, Action.XSync]
               server := w.server.filter (fun p => p.1 ∉ bs.take num.toNat) } := by
  simp [destroy, destroy_loop_eq, World.log]

theorem after_create_descriptors (w : World) (insets : Insets) (ms : List XRRMonitorInfo) :
    (w.after_create insets ms).descriptors =
      w.descriptors ++ ms.flatMap (edge_barriers insets) := by
  simp only [World.after_create, World.descriptors, List.map_append]
  rw [List.map_snd_zip _ _ (by rw [flatMap_edge_barriers_length, List.length_range'])]

theorem after_create_handles (w : World) (insets : Insets) (ms : List XRRMonitorInfo) :
    (w.after_create insets ms).handles =
      w.handles ++ List.range' w.next_id (4 * ms.length) := by
  simp only [World.after_create, World.handles, List.map_append]
  rw [List.map_fst_zip _ _ (by rw [flatMap_edge_barriers_length, List.length_range'])]

/-! ## Barrier geometry (C1, C2, C3) -/

theorem wrap_int_eq (v : Int) (h : in_int v) : wrap_int v = v := by
  unfold in_int at h
  unfold wrap_int
  omega

theorem wrap_int_monitor (m : XRRMonitorInfo) :
    wrap_int (m.x + m.width) = m.x + m.width ∧ wrap_int (m.y + m.height) = m.y + m.height := by
  have hx := m.x_range
  have hy := m.y_range
  have hw := m.width_range
  have hh := m.height_range
  constructor <;> apply wrap_int_eq <;> unfold in_int <;> omega

theorem edge_barriers_eq_ideal (insets : Insets) (m : XRRMonitorInfo)
    (h : no_overflow insets m) : edge_barriers insets m = ideal_barriers insets m := by
  obtain ⟨h1, h2, h3, h4⟩ := h
  simp only [edge_barriers, ideal_barriers, int_add, int_sub, (wrap_int_monitor m).1,
    (wrap_int_monitor m).2, wrap_int_eq _ h1, wrap_int_eq _ h2, wrap_int_eq _ h3,
    wrap_int_eq _ h4]

theorem flatMap_edge_barriers_eq_ideal (insets : Insets) (ms : List XRRMonitorInfo)
    (h : ∀ m ∈ ms, no_overflow insets m) :
    ms.flatMap (edge_barriers insets) = ms.flatMap (ideal_barriers insets) := by
  induction ms with
  | nil => rfl
  | cons m ms ih =>
    simp only [List.flatMap_cons]
    rw [edge_barriers_eq_ideal insets m (h m (List.mem_cons_self _ _)),
      ih (fun m' hm' => h m' (List.mem_cons_of_mem _ hm'))]

theorem no_overflow_of_top (v : Int) (m : XRRMonitorInfo) (h : in_int (m.y + v)) :
    no_overflow ⟨v, 0, 0, 0⟩ m := by
  have hx := m.x_range
  have hy := m.y_range
  have hw := m.width_range
  have hh := m.height_range
  unfold no_overflow in_int at *
  simp only
  omega

theorem no_overflow_of_left (v : Int) (m : XRRMonitorInfo) (h : in_int (m.x + v)) :
    no_overflow ⟨0, v, 0, 0⟩ m := by
  have hx := m.x_range
  have hy := m.y_range
  have hw := m.width_range
  have hh := m.height_range
  unfold no_overflow in_int at *
  simp only
  omega

theorem no_overflow_of_right (v : Int) (m : XRRMonitorInfo)
    (h : in_int (m.x + m.width - v)) : no_overflow ⟨0, 0, v, 0⟩ m := by
  have hx := m.x_range
  have hy := m.y_range
  have hw := m.width_range
  have hh := m.height_range
  unfold no_overflow in_int at *
  simp only
  omega

theorem no_overflow_of_bottom (v : Int) (m : XRRMonitorInfo)
    (h : in_int (m.y + m.height - v)) : no_overflow ⟨0, 0, 0, v⟩ m := by
  have hx := m.x_range
  have hy := m.y_range
  have hw := m.width_range
  have hh := m.height_range
  unfold no_overflow in_int at *
  simp only
  omega

theorem no_overflow_zero (m : XRRMonitorInfo) : no_overflow ⟨0, 0, 0, 0⟩ m := by
  have hy := m.y_range
  apply no_overflow_of_top
  unfold in_int
  omega

/-- C1 as stated fails: started with the insets `(2147483647, 0, 0, 0)`, which
pass the check of `main`, and one monitor at `(0, 1)`, the program issues the
top barrier at `y = -2147483648`, not at `y + top = 2147483648`. -/
theorem C1_counterexample :
    (main env_low 0 ["xpointerbarrier", "2147483647", "0", "0", "0"] []).2.trace =
      [Action.XOpenDisplay, Action.XQueryExtension, Action.sigaction,
       Action.XRRGetMonitors, Action.calloc 4,
       Action.XFixesCreatePointerBarrier
         ⟨0, -2147483648, 1920, -2147483648, BarrierPositiveY⟩,
       Action.XFixesCreatePointerBarrier ⟨0, 1, 0, 1081, 0⟩,
       Action.XFixesCreatePointerBarrier ⟨1920, 1, 1920, 1081, 0⟩,
       Action.XFixesCreatePointerBarrier ⟨0, 1081, 1920, 1081, 0⟩,
       Action.XRRFreeMonitors, Action.XSync, Action.XSelectInput, Action.XSync] ∧
    monitor_low.y + 2147483647 ≠ -2147483648 := by
  decide

/-- C1, amended: for every list of monitors and every insets such that, for
each monitor, the four sums `y + top`, `x + left`, `x + width - right` and
`y + height - bottom` are representable as `int`, the barrier-creation
requests issued by the loop of `create` are, for each monitor in list order,
exactly the four requests top, left, right, bottom with the stated segments,
each with mask `0` for a zero inset and the edge's single-direction mask
otherwise.  When the monitor query yields a non-empty list and the array is
allocated, the calls of `create` are the query, the allocation, these
requests, `XRRFreeMonitors` and `XSync`.  Nothing is clamped, also when an
inset is as large as the width or height or larger. -/
theorem C1_create_requests (insets : Insets) (ms : List XRRMonitorInfo)
    (hno : ∀ m ∈ ms, no_overflow insets m) :
    (∀ (barriers : List PointerBarrier) (w : World),
      (create_loop insets ms barriers w).2.trace =
        w.trace ++
        (ms.flatMap fun m =>
          [Action.XFixesCreatePointerBarrier
             ⟨m.x, m.y + insets.top, m.x + m.width, m.y + insets.top,
              if insets.top = 0 then 0 else BarrierPositiveY⟩,
           Action.XFixesCreatePointerBarrier
             ⟨m.x + insets.left, m.y, m.x + insets.left, m.y + m.height,
              if insets.left = 0 then 0 else BarrierPositiveX⟩,
           Action.XFixesCreatePointerBarrier
             ⟨m.x + m.width - insets.right, m.y, m.x + m.width - insets.right,
              m.y + m.height,
              if insets.right = 0 then 0 else BarrierNegativeX⟩,
           Action.XFixesCreatePointerBarrier
             ⟨m.x, m.y + m.height - insets.bottom, m.x + m.width,
              m.y + m.height - insets.bottom,
              if insets.bottom = 0 then 0 else BarrierNegativeY⟩])) ∧
    (∀ (env : Env) (num : Int) (w : World),
      env.XRRGetMonitors w.n_GetMonitors = .monitors ms → ms ≠ [] →
      env.calloc w.n_calloc = true →
      (create env insets num w).2.2.trace =
        w.trace ++ [Action.XRRGetMonitors, Action.calloc ((ms.length : Int) * 4)] ++
        (ms.flatMap fun m =>
          [Action.XFixesCreatePointerBarrier
             ⟨m.x, m.y + insets.top, m.x + m.width, m.y + insets.top,
              if insets.top = 0 then 0 else BarrierPositiveY⟩,
           Action.XFixesCreatePointerBarrier
             ⟨m.x + insets.left, m.y, m.x + insets.left, m.y + m.height,
              if insets.left = 0 then 0 else BarrierPositiveX⟩,
           Action.XFixesCreatePointerBarrier
             ⟨m.x + m.width - insets.right, m.y, m.x + m.width - insets.right,
              m.y + m.height,
              if insets.right = 0 then 0 else BarrierNegativeX⟩,
           Action.XFixesCreatePointerBarrier
             ⟨m.x, m.y + m.height - insets.bottom, m.x + m.width,
              m.y + m.height - insets.bottom,
              if insets.bottom = 0 then 0 else BarrierNegativeY⟩]) ++
        [Action.XRRFreeMonitors, Action.XSync]) := by
  have hflat := flatMap_edge_barriers_eq_ideal insets ms hno
  constructor
  · intro barriers w
    rw [create_loop_eq, hflat]
    simp [List.map_flatMap, ideal_barriers]
  · intro env num w hq hne hc
    rw [create_ok env insets num w ms hq hne hc]
    simp only [World.after_create, hflat]
    simp [List.map_flatMap, ideal_barriers]

/-- C1 at the monitors `(0, 0, 1920, 1080)` and `(1920, 0, 1280, 1024)` with
insets `(30, 0, 2000, 1080)`: the right inset exceeds both widths and the
bottom inset reaches the height, and the segments are issued unclamped. -/
theorem C1_create_requests_witness :
    (∀ m ∈ [monitor_hd, monitor_right], no_overflow ⟨30, 0, 2000, 1080⟩ m) ∧
    (create_loop ⟨30, 0, 2000, 1080⟩ [monitor_hd, monitor_right] []
        World.init).2.trace =
      [Action.XFixesCreatePointerBarrier ⟨0, 30, 1920, 30, BarrierPositiveY⟩,
       Action.XFixesCreatePointerBarrier ⟨0, 0, 0, 1080, 0⟩,
       Action.XFixesCreatePointerBarrier ⟨-80, 0, -80, 1080, BarrierNegativeX⟩,
       Action.XFixesCreatePointerBarrier ⟨0, 0, 1920, 0, BarrierNegativeY⟩,
       Action.XFixesCreatePointerBarrier ⟨1920, 30, 3200, 30, BarrierPositiveY⟩,
       Action.XFixesCreatePointerBarrier ⟨1920, 0, 1920, 1024, 0⟩,
       Action.XFixesCreatePointerBarrier ⟨1200, 0, 1200, 1024, BarrierNegativeX⟩,
       Action.XFixesCreatePointerBarrier ⟨1920, -56, 3200, -56, BarrierNegativeY⟩] ∧
    (create env_ok ⟨30, 0, 2000, 1080⟩ 0 World.init).2.2.trace =
      [Action.XRRGetMonitors, Action.calloc 4,
       Action.XFixesCreatePointerBarrier ⟨0, 30, 1920, 30, BarrierPositiveY⟩,
       Action.XFixesCreatePointerBarrier ⟨0, 0, 0, 1080, 0⟩,
       Action.XFixesCreatePointerBarrier ⟨-80, 0, -80, 1080, BarrierNegativeX⟩,
       Action.XFixesCreatePointerBarrier ⟨0, 0, 1920, 0, BarrierNegativeY⟩,
       Action.XRRFreeMonitors, Action.XSync] :=
  ⟨by decide,
   ((C1_create_requests ⟨30, 0, 2000, 1080⟩ [monitor_hd, monitor_right] (by decide)).1 []
      World.init).trans (by decide),
   ((C1_create_requests ⟨30, 0, 2000, 1080⟩ [monitor_hd] (by decide)).2 env_ok 0
      World.init rfl (by decide) rfl).trans (by decide)⟩

/-- C2: with insets `(0, 0, 0, 0)` the four barriers computed for a monitor
are its four full edges between its corners (top, left, right, bottom), each
with the omnidirectional mask `0`; and these are, for every monitor of the
list in order, the barriers `create` installs. -/
theorem C2_zero_insets :
    (∀ (m : XRRMonitorInfo) (barriers : List PointerBarrier) (w : World),
      (create_body ⟨0, 0, 0, 0⟩ m barriers w).2.trace =
        w.trace ++
          [Action.XFixesCreatePointerBarrier ⟨m.x, m.y, m.x + m.width, m.y, 0⟩,
           Action.XFixesCreatePointerBarrier ⟨m.x, m.y, m.x, m.y + m.height, 0⟩,
           Action.XFixesCreatePointerBarrier
             ⟨m.x + m.width, m.y, m.x + m.width, m.y + m.height, 0⟩,
           Action.XFixesCreatePointerBarrier
             ⟨m.x, m.y + m.height, m.x + m.width, m.y + m.height, 0⟩]) ∧
    (∀ (env : Env) (num : Int) (w : World) (ms : List XRRMonitorInfo),
      env.XRRGetMonitors w.n_GetMonitors = .monitors ms → ms ≠ [] →
      env.calloc w.n_calloc = true →
      (create env ⟨0, 0, 0, 0⟩ num w).2.2.descriptors =
        w.descriptors ++ ms.flatMap fun m =>
          [⟨m.x, m.y, m.x + m.width, m.y, 0⟩,
           ⟨m.x, m.y, m.x, m.y + m.height, 0⟩,
           ⟨m.x + m.width, m.y, m.x + m.width, m.y + m.height, 0⟩,
           ⟨m.x, m.y + m.height, m.x + m.width, m.y + m.height, 0⟩]) := by
  constructor
  · intro m barriers w
    rw [create_body_eq, edge_barriers_eq_ideal _ m (no_overflow_zero m)]
    simp [ideal_barriers]
  · intro env num w ms hq hne hc
    rw [create_ok env _ num w ms hq hne hc]
    simp only [after_create_descriptors,
      flatMap_edge_barriers_eq_ideal _ ms (fun m _ => no_overflow_zero m)]
    congr 2
    funext m
    simp [ideal_barriers]

/-- C2 at the monitor `(0, 0, 1920, 1080)`: omnidirectional barriers at
`y = 0`, `x = 0`, `x = 1920` and `y = 1080`. -/
theorem C2_zero_insets_witness :
    (create_body ⟨0, 0, 0, 0⟩ monitor_hd [] World.init).2.trace =
      [Action.XFixesCreatePointerBarrier ⟨0, 0, 1920, 0, 0⟩,
       Action.XFixesCreatePointerBarrier ⟨0, 0, 0, 1080, 0⟩,
       Action.XFixesCreatePointerBarrier ⟨1920, 0, 1920, 1080, 0⟩,
       Action.XFixesCreatePointerBarrier ⟨0, 1080, 1920, 1080, 0⟩] ∧
    (create env_ok ⟨0, 0, 0, 0⟩ 0 World.init).2.2.descriptors =
      [⟨0, 0, 1920, 0, 0⟩, ⟨0, 0, 0, 1080, 0⟩, ⟨1920, 0, 1920, 1080, 0⟩,
       ⟨0, 1080, 1920, 1080, 0⟩] :=
  ⟨(C2_zero_insets.1 monitor_hd [] World.init).trans (by decide),
   (C2_zero_insets.2 env_ok 0 World.init [monitor_hd] rfl (by decide) rfl).trans
     (by decide)⟩

/-- C3 as stated fails: with the single inset `top = 2147483647` and the
monitor `(0, 1, 1920, 1080)` the top barrier is put at `y = -2147483648`,
which is not the top edge moved inward by the inset. -/
theorem C3_counterexample :
    (create_body ⟨2147483647, 0, 0, 0⟩ monitor_low [] World.init).2.trace =
      [Action.XFixesCreatePointerBarrier
         ⟨0, -2147483648, 1920, -2147483648, BarrierPositiveY⟩,
       Action.XFixesCreatePointerBarrier ⟨0, 1, 0, 1081, 0⟩,
       Action.XFixesCreatePointerBarrier ⟨1920, 1, 1920, 1081, 0⟩,
       Action.XFixesCreatePointerBarrier ⟨0, 1081, 1920, 1081, 0⟩] ∧
    (-2147483648 : Int) ≠ monitor_low.y + 2147483647 := by
  decide

/-- C3, amended: with exactly one positive inset `v` (the other three zero)
and a monitor for which the moved coordinate (`y + v`, `x + v`,
`x + width - v` or `y + height - v`) is representable as `int`, the four
barriers computed for the monitor are: the barrier of that edge moved inward
by exactly `v` with that edge's single-direction mask, and the other three on
the unmodified edges with mask `0`.  The four single-direction masks are
non-zero, so exactly one barrier per monitor has a non-zero mask.  These
are, for every monitor of the list in order, the barriers `create`
installs. -/
theorem C3_single_inset (v : Int) (hv : 0 < v) :
    (∀ (m : XRRMonitorInfo) (barriers : List PointerBarrier) (w : World),
      (in_int (m.y + v) →
        (create_body ⟨v, 0, 0, 0⟩ m barriers w).2.trace =
          w.trace ++
            [Action.XFixesCreatePointerBarrier
               ⟨m.x, m.y + v, m.x + m.width, m.y + v, BarrierPositiveY⟩,
             Action.XFixesCreatePointerBarrier ⟨m.x, m.y, m.x, m.y + m.height, 0⟩,
             Action.XFixesCreatePointerBarrier
               ⟨m.x + m.width, m.y, m.x + m.width, m.y + m.height, 0⟩,
             Action.XFixesCreatePointerBarrier
               ⟨m.x, m.y + m.height, m.x + m.width, m.y + m.height, 0⟩]) ∧
      (in_int (m.x + v) →
        (create_body ⟨0, v, 0, 0⟩ m barriers w).2.trace =
          w.trace ++
            [Action.XFixesCreatePointerBarrier ⟨m.x, m.y, m.x + m.width, m.y, 0⟩,
             Action.XFixesCreatePointerBarrier
               ⟨m.x + v, m.y, m.x + v, m.y + m.height, BarrierPositiveX⟩,
             Action.XFixesCreatePointerBarrier
               ⟨m.x + m.width, m.y, m.x + m.width, m.y + m.height, 0⟩,
             Action.XFixesCreatePointerBarrier
               ⟨m.x, m.y + m.height, m.x + m.width, m.y + m.height, 0⟩]) ∧
      (in_int (m.x + m.width - v) →
        (create_body ⟨0, 0, v, 0⟩ m barriers w).2.trace =
          w.trace ++
            [Action.XFixesCreatePointerBarrier ⟨m.x, m.y, m.x + m.width, m.y, 0⟩,
             Action.XFixesCreatePointerBarrier ⟨m.x, m.y, m.x, m.y + m.height, 0⟩,
             Action.XFixesCreatePointerBarrier
               ⟨m.x + m.width - v, m.y, m.x + m.width - v, m.y + m.height,
                BarrierNegativeX⟩,
             Action.XFixesCreatePointerBarrier
               ⟨m.x, m.y + m.height, m.x + m.width, m.y + m.height, 0⟩]) ∧
      (in_int (m.y + m.height - v) →
        (create_body ⟨0, 0, 0, v⟩ m barriers w).2.trace =
          w.trace ++
            [Action.XFixesCreatePointerBarrier ⟨m.x, m.y, m.x + m.width, m.y, 0⟩,
             Action.XFixesCreatePointerBarrier ⟨m.x, m.y, m.x, m.y + m.height, 0⟩,
             Action.XFixesCreatePointerBarrier
               ⟨m.x + m.width, m.y, m.x + m.width, m.y + m.height, 0⟩,
             Action.XFixesCreatePointerBarrier
               ⟨m.x, m.y + m.height - v, m.x + m.width, m.y + m.height - v,
                BarrierNegativeY⟩])) ∧
    (BarrierPositiveY ≠ 0 ∧ BarrierPositiveX ≠ 0 ∧ BarrierNegativeX ≠ 0 ∧
      BarrierNegativeY ≠ 0) ∧
    (∀ (env : Env) (num : Int) (w : World) (ms : List XRRMonitorInfo),
      env.XRRGetMonitors w.n_GetMonitors = .monitors ms → ms ≠ [] →
      env.calloc w.n_calloc = true →
      ((∀ m ∈ ms, in_int (m.y + v)) →
        (create env ⟨v, 0, 0, 0⟩ num w).2.2.descriptors =
          w.descriptors ++ ms.flatMap fun m =>
            [⟨m.x, m.y + v, m.x + m.width, m.y + v, BarrierPositiveY⟩,
             ⟨m.x, m.y, m.x, m.y + m.height, 0⟩,
             ⟨m.x + m.width, m.y, m.x + m.width, m.y + m.height, 0⟩,
             ⟨m.x, m.y + m.height, m.x + m.width, m.y + m.height, 0⟩]) ∧
      ((∀ m ∈ ms, in_int (m.x + v)) →
        (create env ⟨0, v, 0, 0⟩ num w).2.2.descriptors =
          w.descriptors ++ ms.flatMap fun m =>
            [⟨m.x, m.y, m.x + m.width, m.y, 0⟩,
             ⟨m.x + v, m.y, m.x + v, m.y + m.height, BarrierPositiveX⟩,
             ⟨m.x + m.width, m.y, m.x + m.width, m.y + m.height, 0⟩,
             ⟨m.x, m.y + m.height, m.x + m.width, m.y + m.height, 0⟩]) ∧
      ((∀ m ∈ ms, in_int (m.x + m.width - v)) →
        (create env ⟨0, 0, v, 0⟩ num w).2.2.descriptors =
          w.descriptors ++ ms.flatMap fun m =>
            [⟨m.x, m.y, m.x + m.width, m.y, 0⟩,
             ⟨m.x, m.y, m.x, m.y + m.height, 0⟩,
             ⟨m.x + m.width - v, m.y, m.x + m.width - v, m.y + m.height,
              BarrierNegativeX⟩,
             ⟨m.x, m.y + m.height, m.x + m.width, m.y + m.height, 0⟩]) ∧
      ((∀ m ∈ ms, in_int (m.y + m.height - v)) →
        (create env ⟨0, 0, 0, v⟩ num w).2.2.descriptors =
          w.descriptors ++ ms.flatMap fun m =>
            [⟨m.x, m.y, m.x + m.width, m.y, 0⟩,
             ⟨m.x, m.y, m.x, m.y + m.height, 0⟩,
             ⟨m.x + m.width, m.y, m.x + m.width, m.y + m.height, 0⟩,
             ⟨m.x, m.y + m.height - v, m.x + m.width, m.y + m.height - v,
              BarrierNegativeY⟩])) := by
  have hv0 : v ≠ 0 := by omega
  refine ⟨?_, ⟨by decide, by decide, by decide, by decide⟩, ?_⟩
  · intro m barriers w
    refine ⟨?_, ?_, ?_, ?_⟩
    · intro h
      rw [create_body_eq, edge_barriers_eq_ideal _ m (no_overflow_of_top v m h)]
      simp [ideal_barriers, hv0]
    · intro h
      rw [create_body_eq, edge_barriers_eq_ideal _ m (no_overflow_of_left v m h)]
      simp [ideal_barriers, hv0]
    · intro h
      rw [create_body_eq, edge_barriers_eq_ideal _ m (no_overflow_of_right v m h)]
      simp [ideal_barriers, hv0]
    · intro h
      rw [create_body_eq, edge_barriers_eq_ideal _ m (no_overflow_of_bottom v m h)]
      simp [ideal_barriers, hv0]
  · intro env num w ms hq hne hc
    refine ⟨?_, ?_, ?_, ?_⟩
    · intro h
      rw [create_ok env _ num w ms hq hne hc]
      simp only [after_create_descriptors,
        flatMap_edge_barriers_eq_ideal _ ms (fun m hm => no_overflow_of_top v m (h m hm))]
      congr 2
      funext m
      simp [ideal_barriers, hv0]
    · intro h
      rw [create_ok env _ num w ms hq hne hc]
      simp only [after_create_descriptors,
        flatMap_edge_barriers_eq_ideal _ ms (fun m hm => no_overflow_of_left v m (h m hm))]
      congr 2
      funext m
      simp [ideal_barriers, hv0]
    · intro h
      rw [create_ok env _ num w ms hq hne hc]
      simp only [after_create_descriptors,
        flatMap_edge_barriers_eq_ideal _ ms (fun m hm => no_overflow_of_right v m (h m hm))]
      congr 2
      funext m
      simp [ideal_barriers, hv0]
    · intro h
      rw [create_ok env _ num w ms hq hne hc]
      simp only [after_create_descriptors,
        flatMap_edge_barriers_eq_ideal _ ms (fun m hm => no_overflow_of_bottom v m (h m hm))]
      congr 2
      funext m
      simp [ideal_barriers, hv0]

/-- C3 at the monitor `(0, 0, 1920, 1080)` with insets `(30, 0, 0, 0)`: the
top barrier lies at `y = 30` over `x` in `[0, 1920]` with the blocks-upward
mask, and left, right, bottom are omnidirectional at `x = 0`, `x = 1920`,
`y = 1080`. -/
theorem C3_single_inset_witness :
    (0 : Int) < 30 ∧ in_int (monitor_hd.y + 30) ∧
    (create_body ⟨30, 0, 0, 0⟩ monitor_hd [] World.init).2.trace =
      [Action.XFixesCreatePointerBarrier ⟨0, 30, 1920, 30, BarrierPositiveY⟩,
       Action.XFixesCreatePointerBarrier ⟨0, 0, 0, 1080, 0⟩,
       Action.XFixesCreatePointerBarrier ⟨1920, 0, 1920, 1080, 0⟩,
       Action.XFixesCreatePointerBarrier ⟨0, 1080, 1920, 1080, 0⟩] ∧
    (create env_ok ⟨30, 0, 0, 0⟩ 0 World.init).2.2.descriptors =
      [⟨0, 30, 1920, 30, BarrierPositiveY⟩, ⟨0, 0, 0, 1080, 0⟩, ⟨1920, 0, 1920, 1080, 0⟩,
       ⟨0, 1080, 1920, 1080, 0⟩] :=
  ⟨by decide, by decide,
   (((C3_single_inset 30 (by decide)).1 monitor_hd [] World.init).1 (by decide)).trans
     (by decide),
   (((C3_single_inset 30 (by decide)).2.2 env_ok 0 World.init [monitor_hd] rfl
      (by decide) rfl).1 (by decide)).trans (by decide)⟩

/-! ## The result of `create` (C4) -/

/-- C4 as stated fails: with one monitor reported and a failing `calloc`,
`create` returns `NULL` although the count is `1` and the monitor list is
there. -/
theorem C4_counterexample :
    (env_calloc_fails.XRRGetMonitors World.init.n_GetMonitors).nmon = 1 ∧
    (env_calloc_fails.XRRGetMonitors World.init.n_GetMonitors).moninf = some [monitor_hd] ∧
    (create env_calloc_fails ⟨0, 0, 0, 0⟩ 0 World.init).1 = none ∧
    ¬ ((create env_calloc_fails ⟨0, 0, 0, 0⟩ 0 World.init).1 = none ↔
        ((env_calloc_fails.XRRGetMonitors World.init.n_GetMonitors).nmon ≤ 0 ∨
         (env_calloc_fails.XRRGetMonitors World.init.n_GetMonitors).moninf = none)) := by
  decide

/-- C4, amended: `create` returns `NULL` exactly when the monitor query
reports a count `N <= 0`, or returns no list, or `calloc` fails.  Whenever it
returns an array, the array has exactly `4 * N` handles, `*num` is `4 * N`,
and these handles are exactly the barriers added at the server.  `*num` is
left untouched when the query gives no monitors, and no barrier is created
whenever `NULL` is returned. -/
theorem C4_create_result (env : Env) (insets : Insets) (num : Int) (w : World) :
    ((create env insets num w).1 = none ↔
      ((env.XRRGetMonitors w.n_GetMonitors).nmon ≤ 0 ∨
       (env.XRRGetMonitors w.n_GetMonitors).moninf = none ∨
       env.calloc w.n_calloc = false)) ∧
    (∀ bs, (create env insets num w).1 = some bs →
      (bs.length : Int) = 4 * (env.XRRGetMonitors w.n_GetMonitors).nmon ∧
      (create env insets num w).2.1 = 4 * (env.XRRGetMonitors w.n_GetMonitors).nmon ∧
      (create env insets num w).2.2.handles = w.handles ++ bs) ∧
    (((env.XRRGetMonitors w.n_GetMonitors).nmon ≤ 0 ∨
       (env.XRRGetMonitors w.n_GetMonitors).moninf = none) →
      (create env insets num w).2.1 = num) ∧
    ((create env insets num w).1 = none →
      (create env insets num w).2.2.server = w.server) := by
  rcases create_cases env insets num w with ⟨h, he⟩ | ⟨ms, hq, hne, hc, he⟩ |
    ⟨ms, hq, hne, hc, he⟩
  · rw [he]
    refine ⟨?_, ?_, ?_, ?_⟩
    · simp only [true_iff]
      rcases h with h | h
      · exact Or.inl h
      · exact Or.inr (Or.inl h)
    · intro bs hbs; simp at hbs
    · intro _; rfl
    · intro _; rfl
  · have hpos : ¬ ((ms.length : Int) ≤ 0) := by
      have : 0 < ms.length := List.length_pos.mpr hne
      omega
    rw [he, hq]
    refine ⟨?_, ?_, ?_, ?_⟩
    · simp only [true_iff]
      exact Or.inr (Or.inr hc)
    · intro bs hbs; simp at hbs
    · intro h
      rcases h with h | h
      · exact absurd h hpos
      · simp [GetMonitorsReply.moninf] at h
    · intro _; rfl
  · have hpos : ¬ ((ms.length : Int) ≤ 0) := by
      have : 0 < ms.length := List.length_pos.mpr hne
      omega
    rw [he, hq]
    refine ⟨?_, ?_, ?_, ?_⟩
    · simp [GetMonitorsReply.nmon, GetMonitorsReply.moninf, hpos, hc]
    · intro bs hbs
      simp only [Option.some.injEq] at hbs
      subst hbs
      refine ⟨?_, ?_, ?_⟩
      · simp [GetMonitorsReply.nmon]
      · simp [GetMonitorsReply.nmon]; ring
      · exact after_create_handles w insets ms
    · intro h
      rcases h with h | h
      · exact absurd h hpos
      · simp [GetMonitorsReply.moninf] at h
    · intro h; simp at h

/-! ## Polling the property (C8) -/

theorem handle_event_eq (env : Env) (ev : XEvent) (s : MainState) (w : World) :
    handle_event env ev s w =
      if ev.type = ConfigureNotify then reconcile env s (w.log (Action.XNextEvent ev.type))
      else (s, w.log (Action.XNextEvent ev.type)) := rfl

theorem handle_toggle_eq (env : Env) (s : MainState) (w : World) :
    handle_toggle env s w =
      if s.do_toggle then
        reconcile env { s with do_toggle := false, barriers_active := !s.barriers_active }
          (w.log (Action.read_do_toggle s.do_toggle))
      else (s, w.log (Action.read_do_toggle s.do_toggle)) := rfl

theorem reconcile_fields (env : Env) (s : MainState) (w : World) :
    (reconcile env s w).1.barriers_active = s.barriers_active ∧
    (reconcile env s w).1.do_toggle = s.do_toggle ∧
    (reconcile env s w).1.insets = s.insets := by
  unfold reconcile
  by_cases h : s.barriers_active = true <;> simp [h]

/-- The actions of one call of `create`: one monitor query, no `free`; an
array is returned exactly when the call gets as far as `XRRFreeMonitors`. -/
theorem create_trace (env : Env) (insets : Insets) (num : Int) (w : World) :
    ∃ d, (create env insets num w).2.2.trace = w.trace ++ d ∧
      d.count Action.XRRGetMonitors = 1 ∧ d.count Action.free = 0 ∧
      (∀ a ∈ d, a.is_reconcile = true) ∧
      (create env insets num w).1.isSome = decide (Action.XRRFreeMonitors ∈ d) := by
  rcases create_cases env insets num w with ⟨_, he⟩ | ⟨ms, _, _, _, he⟩ | ⟨ms, _, _, _, he⟩
  · exact ⟨[Action.XRRGetMonitors], by rw [he], by decide, by decide, by
      simp [Action.is_reconcile], by rw [he]; simp⟩
  · refine ⟨[Action.XRRGetMonitors, Action.calloc ((ms.length : Int) * 4)], by rw [he],
      ?_, ?_, ?_, ?_⟩
    · simp [List.count_cons]
    · simp [List.count_cons]
    · simp [Action.is_reconcile]
    · rw [he]; simp
  · refine ⟨[Action.XRRGetMonitors, Action.calloc ((ms.length : Int) * 4)] ++
      (ms.flatMap (edge_barriers insets)).map Action.XFixesCreatePointerBarrier ++
      [Action.XRRFreeMonitors, Action.XSync], ?_, ?_, ?_, ?_, ?_⟩
    · rw [he]; simp [World.after_create]
    · have h0 : ((ms.flatMap (edge_barriers insets)).map
          Action.XFixesCreatePointerBarrier).count Action.XRRGetMonitors = 0 :=
        List.count_eq_zero_of_not_mem (by simp)
      simp [List.count_append, List.count_cons, h0]
    · have h0 : ((ms.flatMap (edge_barriers insets)).map
          Action.XFixesCreatePointerBarrier).count Action.free = 0 :=
        List.count_eq_zero_of_not_mem (by simp)
      simp [List.count_append, List.count_cons, h0]
    · intro a ha
      simp only [List.mem_append, List.mem_cons, List.mem_map, List.mem_singleton,
        List.not_mem_nil, or_false] at ha
      rcases ha with ((rfl | rfl) | ⟨r, _, rfl⟩) | rfl | rfl <;> rfl
    · rw [he]; simp

/-- The actions of one call of `destroy`: one `free`, no monitor query. -/
theorem destroy_trace (bs : List PointerBarrier) (num : Int) (w : World) :
    ∃ d, (destroy bs num w).trace = w.trace ++ d ∧
      d.count Action.XRRGetMonitors = 0 ∧ d.count Action.free = 1 ∧
      (∀ a ∈ d, a.is_reconcile = true) ∧ Action.XRRFreeMonitors ∉ d := by
  rw [destroy_eq]
  generalize List.take num.toNat bs = l
  refine ⟨l.map Action.XFixesDestroyPointerBarrier ++ [Action.free, Action.XSync],
    by simp, ?_, ?_, ?_, by simp⟩
  · have h0 : (l.map Action.XFixesDestroyPointerBarrier).count Action.XRRGetMonitors = 0 :=
      List.count_eq_zero_of_not_mem (by simp)
    simp [List.count_append, List.count_cons, h0]
  · have h0 : (l.map Action.XFixesDestroyPointerBarrier).count Action.free = 0 :=
      List.count_eq_zero_of_not_mem (by simp)
    simp [List.count_append, List.count_cons, h0]
  · intro a ha
    simp only [List.mem_append, List.mem_cons, List.mem_map, List.mem_singleton,
      List.not_mem_nil, or_false] at ha
    rcases ha with ⟨r, _, rfl⟩ | rfl | rfl <;> rfl

/-- The actions of the reconciliation block: one `create` call exactly when
`barriers_active`, one `destroy` call exactly when a set is installed; a set
is installed afterwards exactly when `create` got as far as
`XRRFreeMonitors`. -/
theorem reconcile_trace (env : Env) (s : MainState) (w : World) :
    ∃ d, (reconcile env s w).2.trace = w.trace ++ d ∧
      d.count Action.XRRGetMonitors = (if s.barriers_active then 1 else 0) ∧
      d.count Action.free = (if s.barriers.isSome then 1 else 0) ∧
      (∀ a ∈ d, a.is_reconcile = true) ∧
      (reconcile env s w).1.barriers.isSome = decide (Action.XRRFreeMonitors ∈ d) := by
  have hd : ∃ d1, (match s.barriers with
        | some barriers => destroy barriers s.barriers_num w
        | none => w).trace = w.trace ++ d1 ∧
      d1.count Action.XRRGetMonitors = 0 ∧
      d1.count Action.free = (if s.barriers.isSome then 1 else 0) ∧
      (∀ a ∈ d1, a.is_reconcile = true) ∧ Action.XRRFreeMonitors ∉ d1 := by
    cases hb : s.barriers with
    | none => exact ⟨[], by simp, rfl, rfl, by simp, by simp⟩
    | some bs => simpa using destroy_trace bs s.barriers_num w
  obtain ⟨d1, h1, c1, f1, r1, x1⟩ := hd
  unfold reconcile
  cases ha : s.barriers_active with
  | false =>
    refine ⟨d1, ?_, ?_, ?_, r1, ?_⟩
    · simpa using h1
    · simpa using c1
    · simpa using f1
    · simpa using x1
  | true =>
    obtain ⟨d2, h2, c2, f2, r2, x2⟩ := create_trace env s.insets s.barriers_num
      (match s.barriers with
        | some barriers => destroy barriers s.barriers_num w
        | none => w)
    refine ⟨d1 ++ d2, ?_, ?_, ?_, ?_, ?_⟩
    · simp only [if_true]
      rw [h2, h1, List.append_assoc]
    · simp [List.count_append, c1, c2]
    · simp [List.count_append, f1, f2]
    · intro a ha
      rcases List.mem_append.mp ha with h | h
      · exact r1 a h
      · exact r2 a h
    · simp only [if_true]
      rw [x2]
      simp [x1]

/-! ## The barrier array and the server agree -/

theorem consistent_congr {s s' : MainState} {w w' : World}
    (hb : s'.barriers = s.barriers) (hn : s'.barriers_num = s.barriers_num)
    (hs : w'.server = w.server) (hi : w'.next_id = w.next_id) (h : Consistent s w) :
    Consistent s' w' := by
  unfold Consistent MainState.live World.handles at *
  rw [hb, hn, hs, hi]
  exact h

theorem create_from_empty (env : Env) (s : MainState) (num : Int) (w : World)
    (h : w.server = []) :
    Consistent
      { s with barriers := (create env s.insets num w).1
               barriers_num := (create env s.insets num w).2.1 }
      (create env s.insets num w).2.2 := by
  rcases create_cases env s.insets num w with ⟨_, he⟩ | ⟨ms, _, _, _, he⟩ | ⟨ms, _, _, _, he⟩
  · rw [he]
    simp [Consistent, MainState.live, World.handles, h]
  · rw [he]
    simp [Consistent, MainState.live, World.handles, h]
  · rw [he]
    refine ⟨?_, ?_, ?_⟩
    · show (w.after_create s.insets ms).handles = _
      rw [after_create_handles]
      simp [MainState.live, World.handles, h]
    · intro bs hbs
      simp only [Option.some.injEq] at hbs
      subst hbs
      simp [Int.mul_comm]
    · intro x hx
      rw [after_create_handles] at hx
      simp only [World.handles, h, List.map_nil, List.nil_append, List.mem_range'_1] at hx
      show x < w.next_id + 4 * ms.length
      exact hx.2

/-- One iteration of the main loop either exits because `select` failed or
keeps running. -/
theorem main_loop_body_eq (env : Env) (k : Wake) (s : MainState) (w : World) :
    main_loop_body env k s w =
      if k.select = SelectResult.error then exit_failure (w.log Action.select)
      else
        (.running
          (handle_toggle env
            (drain_events env k.events (if k.sigusr1 then handle_sigusr1 s else s)
              (w.log Action.select)).1
            (drain_events env k.events (if k.sigusr1 then handle_sigusr1 s else s)
              (w.log Action.select)).2).1,
         (handle_toggle env
            (drain_events env k.events (if k.sigusr1 then handle_sigusr1 s else s)
              (w.log Action.select)).1
            (drain_events env k.events (if k.sigusr1 then handle_sigusr1 s else s)
              (w.log Action.select)).2).2) := by
  unfold main_loop_body
  split <;> rfl

theorem read_katria_insets_loop_server (env : Env) :
    ∀ (n : Nat) (w : World), (read_katria_insets_loop env n w).2.server = w.server := by
  intro n
  induction n with
  | zero => intro w; rfl
  | succ n ih =>
    intro w
    unfold read_katria_insets_loop
    simp only
    split
    · rfl
    · rw [ih]; rfl

theorem get_insets_server (env : Env) (argv : List String) (w : World) :
    (get_insets env argv w).2.server = w.server := by
  unfold get_insets
  simp only
  split
  · rfl
  · split
    · have h := read_katria_insets_loop_server env 60 (w.log Action.XOpenDisplay)
      unfold read_katria_insets
      revert h
      cases read_katria_insets_loop env 60 (w.log Action.XOpenDisplay) with
      | mk o w1 => cases o <;> (intro h; simpa [exit_failure, World.log] using h)
    · split <;> rfl

theorem main_setup_server (env : Env) (argv : List String) (w : World) :
    (main_setup env argv w).2.server = w.server := by
  have h := get_insets_server env argv w
  unfold main_setup
  revert h
  cases get_insets env argv w with
  | mk o w1 =>
    cases o with
    | exited c => intro h; exact h
    | running insets =>
      intro h
      simp only
      split
      · simpa [exit_failure, World.log] using h
      · split
        · simpa [exit_failure, World.log] using h
        · split <;> simpa [exit_failure, World.log] using h

theorem main_start_consistent (env : Env) (barriers_num0 : Int) (argv : List String)
    (s : MainState) (w : World)
    (hr : main_start env barriers_num0 argv World.init = (.running s, w)) :
    Consistent s w := by
  have hs := main_setup_server env argv World.init
  unfold main_start at hr
  revert hs hr
  cases main_setup env argv World.init with
  | mk o w1 =>
    cases o with
    | exited c => intro hr _; simp at hr
    | running insets =>
      intro hr hs
      simp only [Prod.mk.injEq, Outcome.running.injEq] at hr
      obtain ⟨rfl, rfl⟩ := hr
      have hc := create_from_empty env ⟨insets, none, barriers_num0, true, false⟩
        barriers_num0 w1 (by simpa [World.init] using hs)
      exact consistent_congr rfl rfl rfl rfl hc

theorem destroy_step_eq (s : MainState) (w : World) (h : Consistent s w) :
    (match s.barriers with
      | some barriers => destroy barriers s.barriers_num w
      | none => w) = w.after_destroy s := by
  obtain ⟨hl, hn, _⟩ := h
  cases hb : s.barriers with
  | none =>
    simp only [MainState.live, hb, Option.getD_none, World.handles, List.map_eq_nil_iff] at hl
    simp [World.after_destroy, hb, hl.symm]
  | some bs =>
    have hnum := hn bs hb
    simp only [MainState.live, hb, Option.getD_some] at hl
    have hf : w.server.filter (fun p => p.1 ∉ bs) = [] := by
      rw [List.filter_eq_nil_iff]
      intro p hp
      have : p.1 ∈ w.handles := List.mem_map_of_mem Prod.fst hp
      rw [hl] at this
      simpa using this
    simp only [destroy_eq, hnum, Int.toNat_ofNat, List.take_length, hf, World.after_destroy,
      hb, Option.isSome_some, if_true, MainState.live, Option.getD_some, List.append_assoc]

theorem reconcile_eq (env : Env) (s : MainState) (w : World) (h : Consistent s w) :
    reconcile env s w =
      if s.barriers_active then
        ({ s with barriers := (create env s.insets s.barriers_num (w.after_destroy s)).1
                  barriers_num := (create env s.insets s.barriers_num (w.after_destroy s)).2.1 },
         (create env s.insets s.barriers_num (w.after_destroy s)).2.2)
      else ({ s with barriers := none }, w.after_destroy s) := by
  unfold reconcile
  simp only [destroy_step_eq s w h]

/-! ## Traces only grow -/

theorem create_trace_grows (env : Env) (insets : Insets) (num : Int) (w : World) :
    w.trace <+: (create env insets num w).2.2.trace := by
  obtain ⟨d, hd, _⟩ := create_trace env insets num w
  exact ⟨d, hd.symm⟩

theorem reconcile_trace_grows (env : Env) (s : MainState) (w : World) :
    w.trace <+: (reconcile env s w).2.trace := by
  obtain ⟨d, hd, _⟩ := reconcile_trace env s w
  exact ⟨d, hd.symm⟩

theorem log_trace_grows (w : World) (a : Action) : w.trace <+: (w.log a).trace :=
  ⟨[a], rfl⟩

theorem handle_event_trace_grows (env : Env) (ev : XEvent) (s : MainState) (w : World) :
    w.trace <+: (handle_event env ev s w).2.trace := by
  rw [handle_event_eq]
  split
  · exact (log_trace_grows w _).trans (reconcile_trace_grows env s _)
  · exact log_trace_grows w _

theorem drain_events_trace_grows (env : Env) (evs : List XEvent) :
    ∀ (s : MainState) (w : World), w.trace <+: (drain_events env evs s w).2.trace := by
  induction evs with
  | nil => intro s w; exact List.prefix_refl _
  | cons ev evs ih =>
    intro s w
    exact (handle_event_trace_grows env ev s w).trans (ih _ _)

theorem handle_toggle_trace_grows (env : Env) (s : MainState) (w : World) :
    w.trace <+: (handle_toggle env s w).2.trace := by
  rw [handle_toggle_eq]
  split
  · exact (log_trace_grows w _).trans (reconcile_trace_grows env _ _)
  · exact log_trace_grows w _

theorem main_loop_body_trace_grows (env : Env) (k : Wake) (s : MainState) (w : World) :
    w.trace <+: (main_loop_body env k s w).2.trace := by
  rw [main_loop_body_eq]
  split
  · exact (log_trace_grows w _).trans (log_trace_grows _ _)
  · exact ((log_trace_grows w _).trans (drain_events_trace_grows env _ _ _)).trans
      (handle_toggle_trace_grows env _ _)

theorem main_loop_trace_grows (env : Env) (ks : List Wake) :
    ∀ (s : MainState) (w : World), w.trace <+: (main_loop env ks s w).2.trace := by
  induction ks with
  | nil => intro s w; exact List.prefix_refl _
  | cons k ks ih =>
    intro s w
    have hb := main_loop_body_trace_grows env k s w
    unfold main_loop
    revert hb
    cases main_loop_body env k s w with
    | mk o w1 =>
      cases o with
      | exited c => intro hb; exact hb
      | running s1 => intro hb; exact hb.trans (ih s1 w1)

/-- The loop leaves only through a failing `select`. -/
theorem main_loop_running (env : Env) (ks : List Wake) :
    ∀ (s : MainState) (w : World), (∀ k ∈ ks, k.select ≠ SelectResult.error) →
      ∃ s' w', main_loop env ks s w = (.running s', w') := by
  induction ks with
  | nil => intro s w _; exact ⟨s, w, rfl⟩
  | cons k ks ih =>
    intro s w h
    have hk : k.select ≠ SelectResult.error := h k (List.mem_cons_self _ _)
    unfold main_loop
    rw [main_loop_body_eq, if_neg hk]
    exact ih _ _ (fun k' hk' => h k' (List.mem_cons_of_mem _ hk'))

/-! ## Start-up: negative insets (C7) and allocation failure (C9) -/

theorem read_katria_insets_loop_startup (env : Env) :
    ∀ (n : Nat) (w : World), (∀ a ∈ w.trace, a.is_startup = true) →
      ∀ a ∈ (read_katria_insets_loop env n w).2.trace, a.is_startup = true := by
  intro n
  induction n with
  | zero => intro w h; exact h
  | succ n ih =>
    intro w h
    unfold read_katria_insets_loop
    simp only
    split
    · intro a ha
      simp only [World.log, List.mem_append, List.mem_singleton] at ha
      rcases ha with (ha | rfl) | rfl
      · exact h a ha
      · rfl
      · rfl
    · apply ih
      intro a ha
      simp only [World.log, List.mem_append, List.mem_singleton] at ha
      rcases ha with (ha | rfl) | rfl
      · exact h a ha
      · rfl
      · rfl

theorem get_insets_startup (env : Env) (argv : List String) :
    ∀ a ∈ (get_insets env argv World.init).2.trace, a.is_startup = true := by
  have h0 : ∀ a ∈ (World.init.log Action.XOpenDisplay).trace, a.is_startup = true := by
    intro a ha
    simp only [World.log, World.init, List.nil_append, List.mem_singleton] at ha
    subst ha; rfl
  have hx : ∀ w : World, (∀ a ∈ w.trace, a.is_startup = true) →
      ∀ a ∈ (exit_failure (α := Insets) w).2.trace, a.is_startup = true := by
    intro w h a ha
    simp only [exit_failure, World.log, List.mem_append, List.mem_singleton] at ha
    rcases ha with ha | rfl
    · exact h a ha
    · rfl
  unfold get_insets
  simp only
  split
  · exact hx _ h0
  · split
    · have h := read_katria_insets_loop_startup env 60 _ h0
      unfold read_katria_insets
      revert h
      cases read_katria_insets_loop env 60 (World.init.log Action.XOpenDisplay) with
      | mk o w1 =>
        cases o with
        | none => intro h; exact hx _ h
        | some insets => intro h; exact h
    · split
      · exact h0
      · exact hx _ h0

theorem main_setup_passes (env : Env) (argv : List String) (insets : Insets) (w1 : World)
    (h : get_insets env argv World.init = (.running insets, w1))
    (hnn : 0 ≤ insets.top ∧ 0 ≤ insets.left ∧ 0 ≤ insets.right ∧ 0 ≤ insets.bottom) :
    (w1.log Action.XQueryExtension).trace <+: (main_setup env argv World.init).2.trace := by
  have hneg : ¬ (insets.top < 0 ∨ insets.left < 0 ∨ insets.right < 0 ∨ insets.bottom < 0) := by
    omega
  unfold main_setup
  simp only [h, hneg, if_false]
  split
  · exact log_trace_grows _ _
  · split
    · exact (log_trace_grows _ _).trans (log_trace_grows _ _)
    · exact log_trace_grows _ _

theorem main_start_trace_grows (env : Env) (barriers_num0 : Int) (argv : List String) :
    (main_setup env argv World.init).2.trace <+:
      (main_start env barriers_num0 argv World.init).2.trace := by
  unfold main_start
  cases main_setup env argv World.init with
  | mk o w1 =>
    cases o with
    | exited c => exact List.prefix_refl _
    | running insets =>
      exact ((create_trace_grows env insets barriers_num0 w1).trans
        (log_trace_grows _ _)).trans (log_trace_grows _ _)

theorem main_trace_grows (env : Env) (barriers_num0 : Int) (argv : List String)
    (ks : List Wake) :
    (main_start env barriers_num0 argv World.init).2.trace <+:
      (main env barriers_num0 argv ks).2.trace := by
  unfold main
  cases main_start env barriers_num0 argv World.init with
  | mk o w1 =>
    cases o with
    | exited c => exact List.prefix_refl _
    | running s1 => exact main_loop_trace_grows env ks s1 w1

/-- C7: whenever the insets obtained at start-up (from the command line or
from the property) have a negative field, `main` exits with `EXIT_FAILURE`
right after the check, and up to that point no monitor query and no
barrier-creation request has been made; when all four are non-negative the
run goes on past the check to the `XQueryExtension` call. -/
theorem C7_negative_insets (env : Env) (barriers_num0 : Int) (argv : List String)
    (insets : Insets) (w1 : World)
    (h : get_insets env argv World.init = (.running insets, w1)) :
    ((insets.top < 0 ∨ insets.left < 0 ∨ insets.right < 0 ∨ insets.bottom < 0) →
      ∀ ks : List Wake,
        main env barriers_num0 argv ks =
          (.exited EXIT_FAILURE, w1.log (Action.exit EXIT_FAILURE)) ∧
        Action.XRRGetMonitors ∉ (main env barriers_num0 argv ks).2.trace ∧
        (∀ r, Action.XFixesCreatePointerBarrier r ∉ (main env barriers_num0 argv ks).2.trace) ∧
        (main env barriers_num0 argv ks).2.server = []) ∧
    ((0 ≤ insets.top ∧ 0 ≤ insets.left ∧ 0 ≤ insets.right ∧ 0 ≤ insets.bottom) →
      ∀ ks : List Wake,
        Action.XQueryExtension ∈ (main env barriers_num0 argv ks).2.trace) := by
  constructor
  · intro hneg ks
    have hm : main env barriers_num0 argv ks =
        (.exited EXIT_FAILURE, w1.log (Action.exit EXIT_FAILURE)) := by
      simp [main, main_start, main_setup, h, hneg, exit_failure]
    have hst := get_insets_startup env argv
    rw [h] at hst
    have hsv := get_insets_server env argv World.init
    rw [h] at hsv
    rw [hm]
    refine ⟨rfl, ?_, ?_, ?_⟩
    · intro hmem
      simp only [World.log, List.mem_append, List.mem_singleton] at hmem
      rcases hmem with hmem | hmem
      · exact absurd (hst _ hmem) (by decide)
      · exact absurd hmem (by decide)
    · intro r hmem
      simp only [World.log, List.mem_append, List.mem_singleton] at hmem
      rcases hmem with hmem | hmem
      · exact absurd (hst _ hmem) (by simp [Action.is_startup])
      · exact absurd hmem (by simp)
    · simpa [World.log, World.init] using hsv
  · intro hnn ks
    have hp := ((main_setup_passes env argv insets w1 h hnn).trans
      (main_start_trace_grows env barriers_num0 argv)).trans
      (main_trace_grows env barriers_num0 argv ks)
    exact hp.subset (by simp [World.log])

/-- C7 at the arguments `(-5, 0, 0, 0)` and at a property holding `-5` (exit
with failure, no query, no barrier), and at `(5, 0, 0, 0)` (the check is
passed). -/
theorem C7_negative_insets_witness :
    main env_ok 0 ["xpointerbarrier", "-5", "0", "0", "0"] [] =
      (.exited EXIT_FAILURE,
       ⟨[Action.XOpenDisplay, Action.exit EXIT_FAILURE], [], 0, 0, 0, 0⟩) ∧
    main env_negative_property 0 ["xpointerbarrier", "-k"] [] =
      (.exited EXIT_FAILURE,
       ⟨[Action.XOpenDisplay, Action.XGetWindowProperty, Action.XFree,
         Action.exit EXIT_FAILURE], [], 0, 0, 0, 1⟩) ∧
    Action.XQueryExtension ∈
      (main env_ok 0 ["xpointerbarrier", "5", "0", "0", "0"] []).2.trace :=
  ⟨((C7_negative_insets env_ok 0 ["xpointerbarrier", "-5", "0", "0", "0"] ⟨-5, 0, 0, 0⟩
      ⟨[Action.XOpenDisplay], [], 0, 0, 0, 0⟩ (by decide)).1 (by decide) []).1,
   ((C7_negative_insets env_negative_property 0 ["xpointerbarrier", "-k"] ⟨-5, 0, 0, 0⟩
      ⟨[Action.XOpenDisplay, Action.XGetWindowProperty, Action.XFree], [], 0, 0, 0, 1⟩
      (by decide)).1 (by decide) []).1,
   (C7_negative_insets env_ok 0 ["xpointerbarrier", "5", "0", "0", "0"] ⟨5, 0, 0, 0⟩
      ⟨[Action.XOpenDisplay], [], 0, 0, 0, 0⟩ (by decide)).2 (by decide) []⟩

/-- C9 as stated fails: with one monitor reported and `calloc` failing, the
program has not exited after start-up and one further wake-up; it runs on with
`barriers == NULL` and no barrier at the server. -/
theorem C9_counterexample :
    env_calloc_fails.XRRGetMonitors 0 = .monitors [monitor_hd] ∧
    env_calloc_fails.calloc 0 = false ∧
    (main env_calloc_fails 0 ["xpointerbarrier", "0", "0", "0", "0"] []).2.trace =
      [Action.XOpenDisplay, Action.XQueryExtension, Action.sigaction, Action.XRRGetMonitors,
       Action.calloc 4, Action.XSelectInput, Action.XSync] ∧
    (main env_calloc_fails 0 ["xpointerbarrier", "0", "0", "0", "0"] []).1 =
      .running ⟨⟨0, 0, 0, 0⟩, none, 4, true, false⟩ ∧
    (main env_calloc_fails 0 ["xpointerbarrier", "0", "0", "0", "0"]
      [⟨.ready, false, []⟩]).1 = .running ⟨⟨0, 0, 0, 0⟩, none, 4, true, false⟩ ∧
    (main env_calloc_fails 0 ["xpointerbarrier", "0", "0", "0", "0"]
      [⟨.ready, false, []⟩]).1 ≠ .exited EXIT_FAILURE := by
  decide

/-- C9, amended: when `calloc` fails inside `create` (at least one monitor
being available), `create` issues no barrier request and returns `NULL`, and
the failure is not fatal.  At each of the three places where `main` calls
`create` (start-up, the handling of a `ConfigureNotify` event while active,
the handling of a toggle that activates) the program stores `NULL` in
`barriers`, is in the active state and runs on with no barrier at the
server; and once the loop is entered `main` leaves it only when `select`
fails. -/
theorem C9_calloc_failure_not_fatal (env : Env) (ms : List XRRMonitorInfo) (hne : ms ≠ []) :
    (∀ (insets : Insets) (num : Int) (w : World),
      env.XRRGetMonitors w.n_GetMonitors = .monitors ms → env.calloc w.n_calloc = false →
      create env insets num w =
        (none, (ms.length : Int) * 4,
         { w with trace := w.trace ++
                    [Action.XRRGetMonitors, Action.calloc ((ms.length : Int) * 4)]
                  n_GetMonitors := w.n_GetMonitors + 1
                  n_calloc := w.n_calloc + 1 })) ∧
    (∀ (barriers_num0 : Int) (argv : List String) (insets : Insets) (w1 : World),
      main_setup env argv World.init = (.running insets, w1) →
      env.XRRGetMonitors w1.n_GetMonitors = .monitors ms → env.calloc w1.n_calloc = false →
      (main_start env barriers_num0 argv World.init).1 =
        .running ⟨insets, none, (ms.length : Int) * 4, true, false⟩ ∧
      (main_start env barriers_num0 argv World.init).2.trace =
        w1.trace ++ [Action.XRRGetMonitors, Action.calloc ((ms.length : Int) * 4),
          Action.XSelectInput, Action.XSync] ∧
      (main_start env barriers_num0 argv World.init).2.server = []) ∧
    (∀ (s : MainState) (w : World) (ev : XEvent),
      Consistent s w → s.barriers_active = true → ev.type = ConfigureNotify →
      env.XRRGetMonitors w.n_GetMonitors = .monitors ms → env.calloc w.n_calloc = false →
      (handle_event env ev s w).1 =
        { s with barriers := none, barriers_num := (ms.length : Int) * 4 } ∧
      (handle_event env ev s w).2.server = []) ∧
    (∀ (s : MainState) (w : World),
      Consistent s w → s.do_toggle = true → s.barriers_active = false →
      env.XRRGetMonitors w.n_GetMonitors = .monitors ms → env.calloc w.n_calloc = false →
      (handle_toggle env s w).1 =
        { s with do_toggle := false, barriers_active := true, barriers := none,
                 barriers_num := (ms.length : Int) * 4 } ∧
      (handle_toggle env s w).2.server = []) ∧
    (∀ (barriers_num0 : Int) (argv : List String) (s : MainState) (w : World)
        (ks : List Wake),
      main_start env barriers_num0 argv World.init = (.running s, w) →
      (∀ k ∈ ks, k.select ≠ SelectResult.error) →
      ∃ s' w', main env barriers_num0 argv ks = (.running s', w')) := by
  refine ⟨?_, ?_, ?_, ?_, ?_⟩
  · intro insets num w hq hc
    exact create_calloc_fails env insets num w ms hq hne hc
  · intro barriers_num0 argv insets w1 hsetup hq hc
    have he := create_calloc_fails env insets barriers_num0 w1 ms hq hne hc
    have hsv : w1.server = [] := by
      have := main_setup_server env argv World.init
      rw [hsetup] at this
      simpa [World.init] using this
    have hstart : main_start env barriers_num0 argv World.init =
        (.running ⟨insets, none, (ms.length : Int) * 4, true, false⟩,
         { w1 with trace := w1.trace ++ [Action.XRRGetMonitors,
                     Action.calloc ((ms.length : Int) * 4), Action.XSelectInput, Action.XSync]
                   n_GetMonitors := w1.n_GetMonitors + 1
                   n_calloc := w1.n_calloc + 1 }) := by
      simp [main_start, hsetup, he, World.log]
    rw [hstart]
    exact ⟨rfl, rfl, hsv⟩
  · intro s w ev hcons hact hev hq hc
    rw [handle_event_eq, if_pos hev, reconcile_eq env, if_pos hact]
    · rw [create_calloc_fails env s.insets s.barriers_num _ ms
        (by simpa [World.after_destroy, World.log] using hq) hne
        (by simpa [World.after_destroy, World.log] using hc)]
      exact ⟨rfl, rfl⟩
    · exact consistent_congr rfl rfl rfl rfl hcons
  · intro s w hcons hdt hact hq hc
    rw [handle_toggle_eq, if_pos hdt, reconcile_eq env]
    · simp only [hact, Bool.not_false, if_true]
      rw [create_calloc_fails env s.insets s.barriers_num _ ms
        (by simpa [World.after_destroy, World.log] using hq) hne
        (by simpa [World.after_destroy, World.log] using hc)]
      exact ⟨rfl, rfl⟩
    · exact consistent_congr rfl rfl rfl rfl hcons
  · intro barriers_num0 argv s w ks hstart hks
    unfold main
    rw [hstart]
    exact main_loop_running env ks s w hks

/-- C9 at `env_calloc_fails` with the arguments `(0, 0, 0, 0)`: start-up, and
a `ConfigureNotify` event handled in the state reached by it. -/
theorem C9_calloc_failure_not_fatal_witness :
    [monitor_hd] ≠ [] ∧
    (main_start env_calloc_fails 0 ["xpointerbarrier", "0", "0", "0", "0"] World.init).1 =
      .running ⟨⟨0, 0, 0, 0⟩, none, 4, true, false⟩ ∧
    (handle_event env_calloc_fails ⟨ConfigureNotify⟩ ⟨⟨0, 0, 0, 0⟩, none, 4, true, false⟩
      (main_start env_calloc_fails 0 ["xpointerbarrier", "0", "0", "0", "0"]
        World.init).2).1 = ⟨⟨0, 0, 0, 0⟩, none, 4, true, false⟩ :=
  ⟨by decide,
   ((C9_calloc_failure_not_fatal env_calloc_fails [monitor_hd] (by decide)).2.1 0
      ["xpointerbarrier", "0", "0", "0", "0"] ⟨0, 0, 0, 0⟩
      ⟨[Action.XOpenDisplay, Action.XQueryExtension, Action.sigaction], [], 0, 0, 0, 0⟩
      (by decide) rfl rfl).1,
   ((C9_calloc_failure_not_fatal env_calloc_fails [monitor_hd] (by decide)).2.2.1
      ⟨⟨0, 0, 0, 0⟩, none, 4, true, false⟩
      (main_start env_calloc_fails 0 ["xpointerbarrier", "0", "0", "0", "0"] World.init).2
      ⟨ConfigureNotify⟩
      (main_start_consistent env_calloc_fails 0 ["xpointerbarrier", "0", "0", "0", "0"] _ _
        (Prod.ext (by decide) rfl)) rfl rfl rfl rfl).1⟩

/-! ## The server holds exactly the live set (C5) -/

theorem drain_events_no_configure (env : Env) (evs : List XEvent) :
    ∀ (s : MainState) (w : World), (∀ ev ∈ evs, ev.type ≠ ConfigureNotify) →
      drain_events env evs s w =
        (s, { w with trace := w.trace ++ evs.map fun ev => Action.XNextEvent ev.type }) := by
  induction evs with
  | nil => intro s w _; simp [drain_events]
  | cons ev evs ih =>
    intro s w h
    have h0 : ev.type ≠ ConfigureNotify := h ev (List.mem_cons_self _ _)
    unfold drain_events
    rw [handle_event_eq, if_neg h0]
    simp only
    rw [ih _ _ (fun e he => h e (List.mem_cons_of_mem _ he))]
    simp [World.log]

/-- A wake-up with SIGUSR1 and no `ConfigureNotify` event, in the active
state: the program ends up inactive without a set. -/
theorem toggle_wake_off (env : Env) (s : MainState) (w : World) (k : Wake)
    (hcons : Consistent s w) (hact : s.barriers_active = true)
    (hs : k.select ≠ SelectResult.error) (ht : k.sigusr1 = true)
    (he : ∀ ev ∈ k.events, ev.type ≠ ConfigureNotify) :
    ∃ w1, main_loop_body env k s w =
        (.running { s with do_toggle := false, barriers_active := false, barriers := none },
         w1) ∧
      w1.server = [] ∧ w1.next_id = w.next_id ∧ w1.n_GetMonitors = w.n_GetMonitors ∧
      w1.n_calloc = w.n_calloc ∧
      ∀ b ∈ s.live, Action.XFixesDestroyPointerBarrier b ∈ w1.trace := by
  rw [main_loop_body_eq, if_neg hs, ht]
  simp only [if_true]
  rw [drain_events_no_configure env k.events _ _ he]
  simp only [handle_toggle_eq, handle_sigusr1, if_true]
  rw [reconcile_eq env]
  · simp only [hact, Bool.not_true, Bool.false_eq_true, if_false]
    refine ⟨_, rfl, rfl, rfl, rfl, rfl, ?_⟩
    intro b hb
    cases hbs : s.barriers with
    | none => simp [MainState.live, hbs] at hb
    | some bs =>
      simp only [MainState.live, hbs, Option.getD_some] at hb
      simp [World.after_destroy, hbs, MainState.live, hb]
  · exact consistent_congr rfl rfl rfl rfl hcons

/-- A wake-up with SIGUSR1 and no `ConfigureNotify` event, in the inactive
state without a set, the monitors `ms` being reported: the program ends up
active with a fresh set for `ms`. -/
theorem toggle_wake_on (env : Env) (s : MainState) (w : World) (k : Wake)
    (ms : List XRRMonitorInfo)
    (hsv : w.server = []) (hact : s.barriers_active = false) (hbs : s.barriers = none)
    (hs : k.select ≠ SelectResult.error) (ht : k.sigusr1 = true)
    (he : ∀ ev ∈ k.events, ev.type ≠ ConfigureNotify)
    (hq : env.XRRGetMonitors w.n_GetMonitors = .monitors ms) (hne : ms ≠ [])
    (hc : env.calloc w.n_calloc = true) :
    ∃ s2 w2, main_loop_body env k s w = (.running s2, w2) ∧
      s2.barriers_active = true ∧ s2.barriers = some w2.handles ∧
      w2.handles.length = 4 * ms.length ∧
      w2.descriptors = ms.flatMap (edge_barriers s.insets) := by
  rw [main_loop_body_eq, if_neg hs, ht]
  simp only [if_true]
  rw [drain_events_no_configure env k.events _ _ he]
  simp only [handle_toggle_eq, handle_sigusr1, if_true]
  rw [reconcile_eq env]
  · simp only [hact, Bool.not_false, if_true]
    rw [create_ok env s.insets s.barriers_num _ ms
      (by simpa [World.after_destroy, World.log] using hq) hne
      (by simpa [World.after_destroy, World.log] using hc)]
    refine ⟨_, _, rfl, rfl, ?_, ?_, ?_⟩
    · simp only [after_create_handles]
      simp [World.after_destroy, World.handles]
    · simp only [after_create_handles]
      simp [World.after_destroy, World.handles]
    · simp only [after_create_descriptors]
      simp [World.after_destroy, World.descriptors]
  · simp [Consistent, World.handles, World.log, MainState.live, hbs, hsv]

/-- C6 as stated fails: the monitor query answers `[monitor_hd]` every time,
the set is installed at start-up, and two wake-ups with SIGUSR1 follow; the
`calloc` of the second toggle fails, and the program ends up active with
`barriers == NULL` and no barrier at the server, not with a set equal to the
original one. -/
theorem C6_counterexample :
    env_second_calloc_fails.XRRGetMonitors 0 = .monitors [monitor_hd] ∧
    env_second_calloc_fails.XRRGetMonitors 1 = .monitors [monitor_hd] ∧
    (main env_second_calloc_fails 0 ["xpointerbarrier", "30", "0", "0", "0"] []).1 =
      .running ⟨⟨30, 0, 0, 0⟩, some [0, 1, 2, 3], 4, true, false⟩ ∧
    (main env_second_calloc_fails 0 ["xpointerbarrier", "30", "0", "0", "0"]
      []).2.descriptors =
      [⟨0, 30, 1920, 30, BarrierPositiveY⟩, ⟨0, 0, 0, 1080, 0⟩, ⟨1920, 0, 1920, 1080, 0⟩,
       ⟨0, 1080, 1920, 1080, 0⟩] ∧
    (main env_second_calloc_fails 0 ["xpointerbarrier", "30", "0", "0", "0"]
      [⟨.eintr, true, []⟩]).1 = .running ⟨⟨30, 0, 0, 0⟩, none, 4, false, false⟩ ∧
    (main env_second_calloc_fails 0 ["xpointerbarrier", "30", "0", "0", "0"]
      [⟨.eintr, true, []⟩, ⟨.eintr, true, []⟩]).1 =
      .running ⟨⟨30, 0, 0, 0⟩, none, 4, true, false⟩ ∧
    (main env_second_calloc_fails 0 ["xpointerbarrier", "30", "0", "0", "0"]
      [⟨.eintr, true, []⟩, ⟨.eintr, true, []⟩]).2.descriptors = [] := by
  decide

/-- C6, amended: from the active state with a set installed for the monitor
layout `ms`, a wake-up in which SIGUSR1 arrives and no `ConfigureNotify` event
leaves the program inactive with `barriers == NULL`, a destroy request issued
for every old handle and no barrier at the server; a second such wake-up, the
monitor query answering `ms` again and the array for the new set being
allocated, leaves it active with a newly created set whose sequence of
segments and masks equals that of the original set. -/
theorem C6_toggle_twice (env : Env) (s : MainState) (w : World) (bs : List PointerBarrier)
    (ms : List XRRMonitorInfo) (k1 k2 : Wake)
    (hcons : Consistent s w) (hact : s.barriers_active = true) (hbs : s.barriers = some bs)
    (horig : w.descriptors = ms.flatMap (edge_barriers s.insets)) (hne : ms ≠ [])
    (hs1 : k1.select ≠ SelectResult.error) (ht1 : k1.sigusr1 = true)
    (he1 : ∀ ev ∈ k1.events, ev.type ≠ ConfigureNotify)
    (hs2 : k2.select ≠ SelectResult.error) (ht2 : k2.sigusr1 = true)
    (he2 : ∀ ev ∈ k2.events, ev.type ≠ ConfigureNotify)
    (hq : env.XRRGetMonitors w.n_GetMonitors = .monitors ms)
    (hc : env.calloc w.n_calloc = true) :
    ∃ s1 w1 s2 w2,
      main_loop_body env k1 s w = (.running s1, w1) ∧
      s1.barriers_active = false ∧ s1.barriers = none ∧ w1.server = [] ∧
      (∀ b ∈ bs, Action.XFixesDestroyPointerBarrier b ∈ w1.trace) ∧
      main_loop_body env k2 s1 w1 = (.running s2, w2) ∧
      s2.barriers_active = true ∧ s2.barriers = some w2.handles ∧
      w2.handles.length = 4 * ms.length ∧
      w2.descriptors = w.descriptors := by
  obtain ⟨w1, h1, hsv, _, hn, hcal, hd⟩ := toggle_wake_off env s w k1 hcons hact hs1 ht1 he1
  obtain ⟨s2, w2, h2, ha2, hb2, hl2, hd2⟩ := toggle_wake_on env
    { s with do_toggle := false, barriers_active := false, barriers := none } w1 k2 ms
    hsv rfl rfl hs2 ht2 he2 (by rw [hn]; exact hq) hne (by rw [hcal]; exact hc)
  refine ⟨_, w1, s2, w2, h1, rfl, rfl, hsv, ?_, h2, ha2, hb2, hl2, ?_⟩
  · intro b hb
    exact hd b (by simp [MainState.live, hbs, hb])
  · rw [hd2, horig]

/-- C6 on the state reached by the start-up of `env_ok` with insets
`(30, 0, 0, 0)`: a wake-up interrupted by SIGUSR1, then a wake-up with
SIGUSR1 and an unrelated event. -/
theorem C6_toggle_twice_witness :
    ∃ s1 w1 s2 w2,
      main_loop_body env_ok ⟨.eintr, true, []⟩
        ⟨⟨30, 0, 0, 0⟩, some [0, 1, 2, 3], 4, true, false⟩
        (main_start env_ok 0 ["xpointerbarrier", "30", "0", "0", "0"] World.init).2 =
          (.running s1, w1) ∧
      s1.barriers_active = false ∧ s1.barriers = none ∧ w1.server = [] ∧
      (∀ b ∈ [0, 1, 2, 3], Action.XFixesDestroyPointerBarrier b ∈ w1.trace) ∧
      main_loop_body env_ok ⟨.ready, true, [⟨19⟩]⟩ s1 w1 = (.running s2, w2) ∧
      s2.barriers_active = true ∧ s2.barriers = some w2.handles ∧
      w2.handles.length = 4 * [monitor_hd].length ∧
      w2.descriptors =
        (main_start env_ok 0 ["xpointerbarrier", "30", "0", "0", "0"]
          World.init).2.descriptors :=
  C6_toggle_twice env_ok ⟨⟨30, 0, 0, 0⟩, some [0, 1, 2, 3], 4, true, false⟩
    (main_start env_ok 0 ["xpointerbarrier", "30", "0", "0", "0"] World.init).2
    [0, 1, 2, 3] [monitor_hd] ⟨.eintr, true, []⟩ ⟨.ready, true, [⟨19⟩]⟩
    (main_start_consistent env_ok 0 ["xpointerbarrier", "30", "0", "0", "0"] _ _
      (Prod.ext (by decide) rfl))
    rfl rfl (by decide) (by decide) (by decide) rfl (by decide) (by decide) rfl (by decide)
    rfl rfl

/-! ## Order and number of reconciliations in one wake-up (C10) -/

theorem reconcile_actions_no_event (d : List Action) (h : ∀ a ∈ d, a.is_reconcile = true) :
    d.filter Action.is_XNextEvent = [] ∧ ∀ v, Action.read_do_toggle v ∉ d := by
  constructor
  · rw [List.filter_eq_nil_iff]
    intro a ha hx
    have := h a ha
    cases a <;> simp [Action.is_reconcile, Action.is_XNextEvent] at this hx
  · intro v hv
    have := h _ hv
    simp [Action.is_reconcile] at this

theorem handle_event_trace (env : Env) (ev : XEvent) (s : MainState) (w : World) :
    ∃ d, (handle_event env ev s w).2.trace = w.trace ++ Action.XNextEvent ev.type :: d ∧
      (∀ a ∈ d, a.is_reconcile = true) ∧
      d.count Action.XRRGetMonitors =
        (if s.barriers_active then count_ConfigureNotify [ev] else 0) ∧
      d.count Action.free ≤ count_ConfigureNotify [ev] ∧
      (handle_event env ev s w).1.barriers_active = s.barriers_active ∧
      (handle_event env ev s w).1.do_toggle = s.do_toggle ∧
      (ev.type ≠ ConfigureNotify →
        d = [] ∧ (handle_event env ev s w).1.barriers = s.barriers) ∧
      (ev.type = ConfigureNotify →
        d.count Action.free = (if s.barriers.isSome then 1 else 0) ∧
        d.count Action.XRRGetMonitors = (if s.barriers_active then 1 else 0) ∧
        (handle_event env ev s w).1.barriers.isSome =
          decide (Action.XRRFreeMonitors ∈ d)) := by
  rw [handle_event_eq]
  by_cases hev : ev.type = ConfigureNotify
  · rw [if_pos hev]
    obtain ⟨d, hd, hc, hf, hr, hx⟩ := reconcile_trace env s (w.log (Action.XNextEvent ev.type))
    obtain ⟨ha, ht, _⟩ := reconcile_fields env s (w.log (Action.XNextEvent ev.type))
    refine ⟨d, ?_, hr, ?_, ?_, ha, ht, fun h => absurd hev h, fun _ => ⟨hf, hc, hx⟩⟩
    · rw [hd]; simp [World.log]
    · rw [hc]; simp [count_ConfigureNotify, hev]
    · rw [hf]; simp only [count_ConfigureNotify, hev, decide_True, List.filter_cons_of_pos,
        List.filter_nil, List.length_singleton]
      split <;> omega
  · rw [if_neg hev]
    refine ⟨[], by simp [World.log], by simp, ?_, by simp, rfl, rfl, fun _ => ⟨rfl, rfl⟩,
      fun h => absurd h hev⟩
    simp [count_ConfigureNotify, hev]

theorem count_ConfigureNotify_cons (ev : XEvent) (evs : List XEvent) :
    count_ConfigureNotify (ev :: evs) =
      count_ConfigureNotify [ev] + count_ConfigureNotify evs := by
  unfold count_ConfigureNotify
  by_cases h : ev.type = ConfigureNotify <;> simp [h, Nat.add_comm]

theorem drain_events_trace (env : Env) (evs : List XEvent) :
    ∀ (s : MainState) (w : World),
      ∃ d, (drain_events env evs s w).2.trace = w.trace ++ d ∧
        d.filter Action.is_XNextEvent = evs.map (fun ev => Action.XNextEvent ev.type) ∧
        (∀ v, Action.read_do_toggle v ∉ d) ∧
        d.count Action.XRRGetMonitors =
          (if s.barriers_active then count_ConfigureNotify evs else 0) ∧
        d.count Action.free ≤ count_ConfigureNotify evs ∧
        (drain_events env evs s w).1.barriers_active = s.barriers_active ∧
        (drain_events env evs s w).1.do_toggle = s.do_toggle ∧
        Drained s.barriers_active s.barriers.isSome evs d
          (drain_events env evs s w).1.barriers.isSome := by
  induction evs with
  | nil =>
    intro s w
    refine ⟨[], by simp [drain_events], rfl, by simp, ?_, by simp, rfl, rfl, Drained.nil _⟩
    simp [count_ConfigureNotify]
  | cons ev evs ih =>
    intro s w
    obtain ⟨d1, h1, r1, c1, f1, a1, t1, o1, g1⟩ := handle_event_trace env ev s w
    obtain ⟨d2, h2, x2, n2, c2, f2, a2, t2, dr2⟩ :=
      ih (handle_event env ev s w).1 (handle_event env ev s w).2
    obtain ⟨x1, n1⟩ := reconcile_actions_no_event d1 r1
    refine ⟨Action.XNextEvent ev.type :: (d1 ++ d2), ?_, ?_, ?_, ?_, ?_, ?_, ?_, ?_⟩
    · show (drain_events env evs (handle_event env ev s w).1 (handle_event env ev s w).2).2.trace
        = _
      rw [h2, h1]; simp
    · simp [List.filter_cons, Action.is_XNextEvent, x1, x2]
    · intro v hv
      simp only [List.mem_cons, List.mem_append] at hv
      rcases hv with hv | hv | hv
      · cases hv
      · exact n1 v hv
      · exact n2 v hv
    · rw [count_ConfigureNotify_cons]
      simp only [List.count_cons, List.count_append, c1, c2, a1]
      split <;> simp
    · rw [count_ConfigureNotify_cons]
      simp only [List.count_cons, List.count_append]
      simp only [beq_iff_eq, reduceCtorEq, if_false, Nat.add_zero]
      omega
    · show (drain_events env evs (handle_event env ev s w).1
        (handle_event env ev s w).2).1.barriers_active = _
      rw [a2, a1]
    · show (drain_events env evs (handle_event env ev s w).1
        (handle_event env ev s w).2).1.do_toggle = _
      rw [t2, t1]
    · show Drained s.barriers_active s.barriers.isSome (ev :: evs)
        (Action.XNextEvent ev.type :: (d1 ++ d2))
        (drain_events env evs (handle_event env ev s w).1
          (handle_event env ev s w).2).1.barriers.isSome
      rw [a1] at dr2
      by_cases hev : ev.type = ConfigureNotify
      · obtain ⟨gf, gq, gi⟩ := g1 hev
        rw [gi] at dr2
        exact Drained.configure ev evs _ _ d1 d2 hev r1 gf gq dr2
      · obtain ⟨od, ob⟩ := o1 hev
        rw [ob] at dr2
        rw [od, List.nil_append]
        exact Drained.other ev evs _ _ d2 hev dr2

theorem handle_toggle_trace (env : Env) (s : MainState) (w : World) :
    ∃ d, (handle_toggle env s w).2.trace = w.trace ++ Action.read_do_toggle s.do_toggle :: d ∧
      (∀ a ∈ d, a.is_reconcile = true) ∧
      d.count Action.XRRGetMonitors = (if s.do_toggle && !s.barriers_active then 1 else 0) ∧
      d.count Action.free = (if s.do_toggle && s.barriers.isSome then 1 else 0) := by
  rw [handle_toggle_eq]
  by_cases ht : s.do_toggle = true
  · rw [if_pos ht]
    obtain ⟨d, hd, hc, hf, hr, _⟩ := reconcile_trace env
      { s with do_toggle := false, barriers_active := !s.barriers_active }
      (w.log (Action.read_do_toggle s.do_toggle))
    refine ⟨d, ?_, hr, ?_, ?_⟩
    · rw [hd]; simp [World.log]
    · rw [hc]; simp [ht]
    · rw [hf]; simp [ht]
  · rw [if_neg ht]
    refine ⟨[], by simp [World.log], by simp, ?_, ?_⟩
    · simp [ht]
    · simp [ht]

/-- C10 as stated fails: after the start-up of `env_ok`, one wake-up with two
pending `ConfigureNotify` events performs two `destroy` and two `create`
calls for layout-change reconciliation before `do_toggle` is examined. -/
theorem C10_counterexample :
    (main env_ok 0 ["xpointerbarrier", "0", "0", "0", "0"]
        [⟨.ready, false, [⟨ConfigureNotify⟩, ⟨ConfigureNotify⟩]⟩]).2.trace.drop
      (main env_ok 0 ["xpointerbarrier", "0", "0", "0", "0"] []).2.trace.length =
      [Action.select,
       Action.XNextEvent ConfigureNotify,
       Action.XFixesDestroyPointerBarrier 0, Action.XFixesDestroyPointerBarrier 1,
       Action.XFixesDestroyPointerBarrier 2, Action.XFixesDestroyPointerBarrier 3,
       Action.free, Action.XSync,
       Action.XRRGetMonitors, Action.calloc 4,
       Action.XFixesCreatePointerBarrier ⟨0, 0, 1920, 0, 0⟩,
       Action.XFixesCreatePointerBarrier ⟨0, 0, 0, 1080, 0⟩,
       Action.XFixesCreatePointerBarrier ⟨1920, 0, 1920, 1080, 0⟩,
       Action.XFixesCreatePointerBarrier ⟨0, 1080, 1920, 1080, 0⟩,
       Action.XRRFreeMonitors, Action.XSync,
       Action.XNextEvent ConfigureNotify,
       Action.XFixesDestroyPointerBarrier 4, Action.XFixesDestroyPointerBarrier 5,
       Action.XFixesDestroyPointerBarrier 6, Action.XFixesDestroyPointerBarrier 7,
       Action.free, Action.XSync,
       Action.XRRGetMonitors, Action.calloc 4,
       Action.XFixesCreatePointerBarrier ⟨0, 0, 1920, 0, 0⟩,
       Action.XFixesCreatePointerBarrier ⟨0, 0, 0, 1080, 0⟩,
       Action.XFixesCreatePointerBarrier ⟨1920, 0, 1920, 1080, 0⟩,
       Action.XFixesCreatePointerBarrier ⟨0, 1080, 1920, 1080, 0⟩,
       Action.XRRFreeMonitors, Action.XSync,
       Action.read_do_toggle false] := by
  decide

/-- C10, amended: in every wake-up whose `select` does not fail, the actions
are `select`, then a part `pre`, then the examination of `do_toggle`, then a
part `post`.  In `pre` every pending event is taken with `XNextEvent`, in
order, and every `ConfigureNotify` event is reconciled right after it is
taken, so before `do_toggle` is examined: one `destroy` call exactly when a
set is installed at that moment and one `create` call exactly when the
program is active (`Drained`).  Hence `pre` holds at most one `create` call
(one monitor query) and at most one `destroy` call (one `free`) per pending
`ConfigureNotify` event.  `post` holds no `XNextEvent` and only actions of
`destroy` and `create`: one `create` call exactly when the flag is set and
the program was inactive, one `destroy` call exactly when the flag is set and
a set is installed after `pre`, so at most one of each.  When at most one
`ConfigureNotify` event is pending the whole wake-up makes at most one
`create` call. -/
theorem C10_wake_order (env : Env) (k : Wake) (s : MainState) (w : World)
    (hsel : k.select ≠ SelectResult.error) :
    ∃ (pre post : List Action) (installed : Bool),
      (main_loop_body env k s w).2.trace =
        w.trace ++ [Action.select] ++ pre ++
          [Action.read_do_toggle (if k.sigusr1 then true else s.do_toggle)] ++ post ∧
      Drained s.barriers_active s.barriers.isSome k.events pre installed ∧
      pre.filter Action.is_XNextEvent = k.events.map (fun ev => Action.XNextEvent ev.type) ∧
      post.filter Action.is_XNextEvent = [] ∧
      (∀ v, Action.read_do_toggle v ∉ pre) ∧
      (∀ v, Action.read_do_toggle v ∉ post) ∧
      (∀ a ∈ post, a.is_reconcile = true) ∧
      post.count Action.XRRGetMonitors =
        (if (if k.sigusr1 then true else s.do_toggle) && !s.barriers_active then 1 else 0) ∧
      post.count Action.free =
        (if (if k.sigusr1 then true else s.do_toggle) && installed then 1 else 0) ∧
      pre.count Action.XRRGetMonitors ≤ count_ConfigureNotify k.events ∧
      pre.count Action.free ≤ count_ConfigureNotify k.events ∧
      post.count Action.XRRGetMonitors ≤ 1 ∧
      post.count Action.free ≤ 1 ∧
      (count_ConfigureNotify k.events ≤ 1 →
        pre.count Action.XRRGetMonitors + post.count Action.XRRGetMonitors ≤ 1) := by
  obtain ⟨pre, h1, x1, n1, c1, f1, a1, t1, dr⟩ := drain_events_trace env k.events
    (if k.sigusr1 then handle_sigusr1 s else s) (w.log Action.select)
  obtain ⟨post, h2, r2, c2, f2⟩ := handle_toggle_trace env
    (drain_events env k.events (if k.sigusr1 then handle_sigusr1 s else s)
      (w.log Action.select)).1
    (drain_events env k.events (if k.sigusr1 then handle_sigusr1 s else s)
      (w.log Action.select)).2
  obtain ⟨x2, n2⟩ := reconcile_actions_no_event post r2
  have hdt : (if k.sigusr1 then handle_sigusr1 s else s).do_toggle =
      (if k.sigusr1 then true else s.do_toggle) := by
    split <;> rfl
  have hact : (if k.sigusr1 then handle_sigusr1 s else s).barriers_active =
      s.barriers_active := by
    split <;> rfl
  have hbar : (if k.sigusr1 then handle_sigusr1 s else s).barriers = s.barriers := by
    split <;> rfl
  rw [t1, a1, hdt, hact] at c2
  rw [t1, hdt] at f2
  rw [hact] at c1
  rw [hact, hbar] at dr
  have key : ∀ b : Bool, (if b = true then 1 else 0) ≤ 1 := by
    intro b; cases b <;> decide
  refine ⟨pre, post, _, ?_, dr, x1, x2, n1, n2, r2, c2, f2, ?_, f1, ?_, ?_, ?_⟩
  · rw [main_loop_body_eq, if_neg hsel]
    show (handle_toggle env _ _).2.trace = _
    rw [h2, h1, t1, hdt]
    simp [World.log]
  · rw [c1]; split
    · exact Nat.le_refl _
    · exact Nat.zero_le _
  · rw [c2]; exact key _
  · rw [f2]; exact key _
  · intro hle
    rw [c1, c2]
    cases hb : s.barriers_active
    · simp only [Bool.false_eq_true, if_false, Nat.zero_add]
      exact key _
    · simp only [if_true, Bool.not_true, Bool.and_false, Bool.false_eq_true, if_false,
        Nat.add_zero]
      exact hle

/-- C10 on the state reached by the start-up of `env_ok`: a wake-up with one
`ConfigureNotify` event and SIGUSR1 makes one `create` call in all. -/
theorem C10_wake_order_witness :
    ∃ (pre post : List Action) (installed : Bool),
      (main_loop_body env_ok ⟨.ready, true, [⟨ConfigureNotify⟩]⟩
          ⟨⟨0, 0, 0, 0⟩, some [0, 1, 2, 3], 4, true, false⟩
          (main_start env_ok 0 ["xpointerbarrier", "0", "0", "0", "0"] World.init).2).2.trace =
        (main_start env_ok 0 ["xpointerbarrier", "0", "0", "0", "0"] World.init).2.trace ++
          [Action.select] ++ pre ++
          [Action.read_do_toggle (if true then true else false)] ++ post ∧
      Drained true (some [0, 1, 2, 3] : Option (List PointerBarrier)).isSome
        [⟨ConfigureNotify⟩] pre installed ∧
      pre.filter Action.is_XNextEvent =
        [(⟨ConfigureNotify⟩ : XEvent)].map (fun ev => Action.XNextEvent ev.type) ∧
      post.filter Action.is_XNextEvent = [] ∧
      (∀ v, Action.read_do_toggle v ∉ pre) ∧
      (∀ v, Action.read_do_toggle v ∉ post) ∧
      (∀ a ∈ post, a.is_reconcile = true) ∧
      post.count Action.XRRGetMonitors =
        (if (if true then true else false) && !true then 1 else 0) ∧
      post.count Action.free =
        (if (if true then true else false) && installed then 1 else 0) ∧
      pre.count Action.XRRGetMonitors ≤ count_ConfigureNotify [⟨ConfigureNotify⟩] ∧
      pre.count Action.free ≤ count_ConfigureNotify [⟨ConfigureNotify⟩] ∧
      post.count Action.XRRGetMonitors ≤ 1 ∧
      post.count Action.free ≤ 1 ∧
      (count_ConfigureNotify [⟨ConfigureNotify⟩] ≤ 1 →
        pre.count Action.XRRGetMonitors + post.count Action.XRRGetMonitors ≤ 1) :=
  C10_wake_order env_ok ⟨.ready, true, [⟨ConfigureNotify⟩]⟩
    ⟨⟨0, 0, 0, 0⟩, some [0, 1, 2, 3], 4, true, false⟩
    (main_start env_ok 0 ["xpointerbarrier", "0", "0", "0", "0"] World.init).2 (by decide)

end XPointerBarrier
